import Mathlib

/-!
Formal model of the MetarMap aviation-weather decoder
(`src/utils/metarParser.ts` and `src/utils/tafParser.ts`).

Raw report text is modelled as `List Char`.  JavaScript numbers are
modelled as `ℚ` (all quantities appearing in the decoder are exact
decimals, small integers, or the conversion factor 0.000621371, so no
floating-point rounding is observable at any category boundary);
`Infinity` is modelled by a dedicated constructor where the source can
produce it.  JavaScript `undefined` is modelled by `Option`.
Division by zero yields 0 in this model (Lean's convention for `ℚ`).
-/

set_option maxRecDepth 20000

namespace MetarMap

/-- The `FlightCategory` enum of `src/types/flightCategory.ts`. -/
inductive FlightCategory where
  | VFR
  | MVFR
  | IFR
  | LIFR
  | UNKNOWN
deriving DecidableEq, Repr

/-- The `categoryOrder` map of `parseFlightCategory`
(LIFR 0, IFR 1, MVFR 2, VFR 3, UNKNOWN 4). -/
def categoryOrder : FlightCategory → Nat
  | .LIFR => 0
  | .IFR => 1
  | .MVFR => 2
  | .VFR => 3
  | .UNKNOWN => 4

/-- The five enum member strings, in declaration order
(`Object.values(FlightCategory)`). -/
def flightCategoryStrings : List (List Char) :=
  [('V' :: 'F' :: 'R' :: []), ('M' :: 'V' :: 'F' :: 'R' :: []), ('I' :: 'F' :: 'R' :: []),
   ('L' :: 'I' :: 'F' :: 'R' :: []), ('U' :: 'N' :: 'K' :: 'N' :: 'O' :: 'W' :: 'N' :: [])]

/-- Maps an (uppercased) string to the enum member it spells, if any. -/
def catOfString (s : List Char) : Option FlightCategory :=
  if s = ('V' :: 'F' :: 'R' :: []) then some .VFR
  else if s = ('M' :: 'V' :: 'F' :: 'R' :: []) then some .MVFR
  else if s = ('I' :: 'F' :: 'R' :: []) then some .IFR
  else if s = ('L' :: 'I' :: 'F' :: 'R' :: []) then some .LIFR
  else if s = ('U' :: 'N' :: 'K' :: 'N' :: 'O' :: 'W' :: 'N' :: []) then some .UNKNOWN
  else none

/-- JavaScript word character (regex `\w` / the `\b` boundary class). -/
def isWordChar (c : Char) : Bool :=
  c.isAlpha || c.isDigit || c = '_'

/-- JavaScript whitespace (regex `\s`), restricted to ASCII. -/
def isSpaceChar (c : Char) : Bool :=
  c = ' ' || c = '\t' || c = '\n' || c = '\r' || c = '\x0b' || c = '\x0c'

/-- Regex word boundary `\b`: exactly one of the neighbouring characters
is a word character (`prev = none` at the start of the string). -/
def wordBoundary (prev : Option Char) (next : Option Char) : Bool :=
  (match prev with | none => false | some c => isWordChar c) !=
  (match next with | none => false | some c => isWordChar c)

/-- Numeric value of a decimal digit character. -/
def digitVal (c : Char) : Nat := c.toNat - 48

/-- Value of a list of decimal digits (most significant first). -/
def natOfDigits (ds : List Char) : Nat :=
  ds.foldl (fun acc c => 10 * acc + digitVal c) 0

/-- Models `parseFloat` on a string of digits with an optional fractional
digit part, as an exact rational. -/
def ratOfDec (intPart : List Char) (fracPart : List Char) : ℚ :=
  (natOfDigits intPart : ℚ) +
    fracPart.foldr (fun c acc => ((digitVal c : ℚ) + acc) / 10) 0

/-- The meters → statute miles conversion factor used by both parsers. -/
def metersToMiles : ℚ := 621371 / 1000000000

/-- ASCII `toUpperCase` of one character. -/
def upChar (c : Char) : Char :=
  if 'a' ≤ c ∧ c ≤ 'z' then Char.ofNat (c.toNat - 32) else c

/-- ASCII `toUpperCase` of a string. -/
def upper (s : List Char) : List Char := s.map upChar

/-- JavaScript `a || b` for optional strings (`some []`, the empty
string, is falsy). -/
def jsOrStr (a b : Option (List Char)) : Option (List Char) :=
  match a with
  | some s => if s = [] then b else some s
  | none => b

/-- Models `(a || b || '')`: first truthy string, defaulting to the empty
string. -/
def jsOrStr3 (a b : Option (List Char)) : List Char :=
  match jsOrStr a b with
  | some s => s
  | none => []

/-- Models `String.prototype.includes`: `pat` occurs contiguously in `s`. -/
def containsSub (pat s : List Char) : Bool :=
  match s with
  | [] => pat.isPrefixOf []
  | _ :: rest => pat.isPrefixOf s || containsSub pat rest

/-! ## UTC date model

A JavaScript `Date`, viewed through its UTC accessors, is modelled as a
record of year, 0-based month, day-of-month, hour and minute (the
decoder never produces nonzero seconds or milliseconds).  `normDate`
replays the normalisation `Date.UTC` / the `setUTC*` methods perform on
out-of-range components. -/

/-- A UTC timestamp at minute precision: year, month (0–11 when
normalised), day-of-month, hour, minute. -/
structure DateRec where
  y : Int
  m : Int
  d : Int
  h : Int
  mi : Int
deriving DecidableEq, Repr

/-- Gregorian leap year. -/
def isLeap (y : Int) : Bool := (y % 4 = 0 && y % 100 ≠ 0) || y % 400 = 0

/-- Number of days of month `m` (0-based) of year `y`; `m` is assumed
normalised to 0–11. -/
def daysInMonth (y m : Int) : Int :=
  if m = 1 then (if isLeap y then 29 else 28)
  else if m = 3 ∨ m = 5 ∨ m = 8 ∨ m = 10 then 30
  else 31

/-- Day-of-month normalisation: carries an out-of-range day into
neighbouring months, one month per fuel step. -/
def normDay (fuel : Nat) (y m d : Int) : Int × Int × Int :=
  match fuel with
  | 0 => (y, m, d)
  | fuel + 1 =>
    if d < 1 then
      let y2 := if m = 0 then y - 1 else y
      let m2 := if m = 0 then 11 else m - 1
      normDay fuel y2 m2 (d + daysInMonth y2 m2)
    else if d > daysInMonth y m then
      let y2 := if m = 11 then y + 1 else y
      let m2 := if m = 11 then 0 else m + 1
      normDay fuel y2 m2 (d - daysInMonth y m)
    else (y, m, d)

/-- Normalisation of a date record: months are folded into years,
minutes into hours, hours into days, and the day is carried into
neighbouring months (as `Date.UTC` does).  The day-carry fuel covers
any drift the decoder can produce. -/
def normDate (x : DateRec) : DateRec :=
  let y1 := x.y + x.m / 12
  let m1 := x.m % 12
  let mi1 := x.mi % 60
  let hTot := x.h + x.mi / 60
  let h1 := hTot % 24
  let dTot := x.d + hTot / 24
  let (y2, m2, d2) := normDay 5000 y1 m1 dTot
  ⟨y2, m2, d2, h1, mi1⟩

/-- Models `Date.UTC(y, m, d, h, mi)` (via the record model). -/
def jsUTC (y m d h mi : Int) : DateRec := normDate ⟨y, m, d, h, mi⟩

/-- Models `date.setUTCDate(d)`. -/
def setUTCDateJ (t : DateRec) (d : Int) : DateRec :=
  normDate ⟨t.y, t.m, d, t.h, t.mi⟩

/-- Models `date.setUTCHours(h, mi, 0, 0)`. -/
def setUTCHoursJ (t : DateRec) (h mi : Int) : DateRec :=
  normDate ⟨t.y, t.m, t.d, h, mi⟩

/-- Models `date.setUTCMonth(m)`. -/
def setUTCMonthJ (t : DateRec) (m : Int) : DateRec :=
  normDate ⟨t.y, m, t.d, t.h, t.mi⟩

/-- Days since the Unix epoch of a normalised `(y, m, d)` (0-based
month); standard civil-from-days arithmetic. -/
def daysFromCivil (y m d : Int) : Int :=
  let y1 := y - (if m ≤ 1 then 1 else 0)
  let era := y1 / 400
  let yoe := y1 - era * 400
  let mp := (m + 10) % 12
  let doy := (153 * mp + 2) / 5 + d - 1
  let doe := yoe * 365 + yoe / 4 - yoe / 100 + doy
  era * 146097 + doe - 719468

/-- Models `date.getTime()` at minute precision: minutes since the Unix epoch
of a normalised record. -/
def toMin (t : DateRec) : Int :=
  daysFromCivil t.y t.m t.d * 1440 + t.h * 60 + t.mi

/-- A record is well-formed when every component is in range (what the
`Date` type maintains internally). -/
def DateWF (t : DateRec) : Prop :=
  0 ≤ t.m ∧ t.m ≤ 11 ∧ 1 ≤ t.d ∧ t.d ≤ daysInMonth t.y t.m ∧
  0 ≤ t.h ∧ t.h ≤ 23 ∧ 0 ≤ t.mi ∧ t.mi ≤ 59

instance (t : DateRec) : Decidable (DateWF t) := by
  unfold DateWF; infer_instance

/-- A JavaScript number that may be `Infinity` (used for ceilings and
for the `validTo ‖ Infinity` default). -/
inductive JSNum where
  | fin (q : ℚ)
  | inf
deriving DecidableEq, Repr

/-- Models `x < r` in JavaScript (`Infinity < r` is false). -/
def JSNum.ltR : JSNum → ℚ → Prop
  | .fin q, r => q < r
  | .inf, _ => False

instance (c : JSNum) (r : ℚ) : Decidable (c.ltR r) :=
  match c with
  | .fin q => (inferInstance : Decidable (q < r))
  | .inf => isFalse (fun h => h)

/-- Models `x ≥ r` in JavaScript (`Infinity ≥ r` is true). -/
def JSNum.geR : JSNum → ℚ → Prop
  | .fin q, r => r ≤ q
  | .inf, _ => True

instance (c : JSNum) (r : ℚ) : Decidable (c.geR r) :=
  match c with
  | .fin q => (inferInstance : Decidable ((r : ℚ) ≤ q))
  | .inf => isTrue trivial

/-! ## Pattern scanning

Each regular expression of the source is hand-compiled to a
`tryAt`-function that attempts the pattern at one position (given the
previous character, for `\b`), plus generic first-match (`String.match`)
and all-matches (`String.matchAll` with the `g` flag) drivers. -/

/-- Greedy run of decimal digits. -/
def spanDigits (s : List Char) : List Char × List Char :=
  (s.takeWhile Char.isDigit, s.dropWhile Char.isDigit)

/-- Models `\d+`: at least one digit, greedy. -/
def takeDigits1 (s : List Char) : Option (List Char × List Char) :=
  match spanDigits s with
  | ([], _) => none
  | (ds, rest) => some (ds, rest)

/-- Models `\d{n}`: exactly `n` digits (more digits make the *next* pattern
element see a digit, exactly as in the source regexes). -/
def takeDigitsN : Nat → List Char → Option (List Char × List Char)
  | 0, s => some ([], s)
  | _ + 1, [] => none
  | n + 1, c :: r =>
    if c.isDigit then
      (takeDigitsN n r).map (fun p => (c :: p.1, p.2))
    else none

/-- Models `\b` directly after a word character, looking at the rest of the
string. -/
def boundaryAfterWord (r : List Char) : Bool :=
  match r.head? with
  | none => true
  | some c => !isWordChar c

/-- First match of a pattern over a string (`String.prototype.match`
without the `g` flag): tries the pattern at every position, left to
right. -/
def scanFirst {α : Type} (tryAt : Option Char → List Char → Option α) :
    Option Char → List Char → Option α
  | prev, [] => tryAt prev []
  | prev, c :: rest =>
    match tryAt prev (c :: rest) with
    | some r => some r
    | none => scanFirst tryAt (some c) rest

/-- The character just before the position reached after consuming
`len` characters of `s` (for `\b` context when resuming a global
scan). -/
def lastConsumed (prev : Option Char) (s : List Char) (len : Nat) : Option Char :=
  match (s.take len).getLast? with
  | some c => some c
  | none => prev

/-- All matches with their indices (`String.prototype.matchAll` with
the `g` flag): after a match of length `len` the scan resumes `len`
characters further on.  `tryAt` reports the matched length with the
capture. -/
def scanAll {α : Type} (tryAt : Option Char → List Char → Option (α × Nat)) :
    Nat → Nat → Option Char → List Char → List (Nat × α)
  | 0, _, _, _ => []
  | fuel + 1, idx, prev, s =>
    match s with
    | [] => []
    | c :: rest =>
      match tryAt prev s with
      | some (a, len) =>
        let len := max len 1
        (idx, a) :: scanAll tryAt fuel (idx + len) (lastConsumed prev s len) (s.drop len)
      | none => scanAll tryAt fuel (idx + 1) (some c) rest

/-- One alternative of `\b(LIFR|IFR|MVFR|VFR)\b` at a position. -/
def tryCatAlt (pat : List Char) (cat : FlightCategory) (s : List Char) :
    Option FlightCategory :=
  if pat.isPrefixOf s ∧ boundaryAfterWord (s.drop pat.length) then some cat else none

/-- Models `\b(LIFR|IFR|MVFR|VFR)\b` at one position (alternatives tried in
source order). -/
def tryFlightCatTok (prev : Option Char) (s : List Char) : Option FlightCategory :=
  if wordBoundary prev s.head? then
    (tryCatAlt ("LIFR").toList .LIFR s) <|> (tryCatAlt ("IFR").toList .IFR s) <|>
      (tryCatAlt ("MVFR").toList .MVFR s) <|> (tryCatAlt ("VFR").toList .VFR s)
  else none

/-- First `\b(LIFR|IFR|MVFR|VFR)\b` in a string. -/
def findFlightCatTok (s : List Char) : Option FlightCategory :=
  scanFirst tryFlightCatTok none s

/-- Models `(\d+(?:\.\d+)?)\s*SM` at one position (no word boundaries in this
source regex). -/
def tryVisSM (_ : Option Char) (s : List Char) : Option ℚ :=
  match takeDigits1 s with
  | none => none
  | some (ds, rest1) =>
    let fr : List Char × List Char :=
      match rest1 with
      | '.' :: r =>
        match takeDigits1 r with
        | some (fs, r2) => (fs, r2)
        | none => ([], rest1)
      | _ => ([], rest1)
    let rest3 := fr.2.dropWhile isSpaceChar
    if (("SM").toList).isPrefixOf rest3 then some (ratOfDec ds fr.1) else none

/-- First `(\d+(?:\.\d+)?)\s*SM` match (statute-mile visibility). -/
def findVisSM (s : List Char) : Option ℚ :=
  scanFirst tryVisSM none s

/-- Models `\s(\d{4})\s` at one position. -/
def tryVisMeters (_ : Option Char) (s : List Char) : Option Nat :=
  match s with
  | [] => none
  | c :: rest =>
    if isSpaceChar c then
      match takeDigitsN 4 rest with
      | some (ds, r) =>
        match r.head? with
        | some c2 => if isSpaceChar c2 then some (natOfDigits ds) else none
        | none => none
      | none => none
    else none

/-- First `\s(\d{4})\s` match (meters visibility). -/
def findVisMeters (s : List Char) : Option Nat :=
  scanFirst tryVisMeters none s

/-- One alternative of `\b(BKN|OVC|VV)(\d{3})\b`; yields the 3-digit
height value and the matched length. -/
def tryCloudBOVAlt (pat : List Char) (s : List Char) : Option (Nat × Nat) :=
  if pat.isPrefixOf s then
    match takeDigitsN 3 (s.drop pat.length) with
    | some (ds, r) =>
      if boundaryAfterWord r then some (natOfDigits ds, pat.length + 3) else none
    | none => none
  else none

/-- Models `\b(BKN|OVC|VV)(\d{3})\b` at one position. -/
def tryCloudBOV (prev : Option Char) (s : List Char) : Option ((Nat × Nat)) :=
  if wordBoundary prev s.head? then
    (tryCloudBOVAlt ("BKN").toList s) <|> (tryCloudBOVAlt ("OVC").toList s) <|>
      (tryCloudBOVAlt ("VV").toList s)
  else none

/-- All `\b(BKN|OVC|VV)(\d{3})\b` matches (the `g`-flag scan of the
METAR ceiling extraction); each entry is the 3-digit height value. -/
def cloudLayerMatches (s : List Char) : List Nat :=
  (scanAll tryCloudBOV (s.length + 1) 0 none s).map (fun p => p.2)

/-- One alternative of `\b(CLR|SKC|CAVOK)\b`. -/
def tryWordAlt (pat : List Char) (s : List Char) : Option Unit :=
  if pat.isPrefixOf s ∧ boundaryAfterWord (s.drop pat.length) then some () else none

/-- Models `\b(CLR|SKC|CAVOK)\b` at one position. -/
def tryClearTok (prev : Option Char) (s : List Char) : Option Unit :=
  if wordBoundary prev s.head? then
    (tryWordAlt ("CLR").toList s) <|> (tryWordAlt ("SKC").toList s) <|>
      (tryWordAlt ("CAVOK").toList s)
  else none

/-- Whether the text matches `\b(CLR|SKC|CAVOK)\b` (clear skies). -/
def clearSkiesTest (s : List Char) : Bool :=
  (scanFirst tryClearTok none s).isSome

/-- One alternative of `\b(SCT|FEW)(\d{3})\b`. -/
def trySctFewAlt (pat : List Char) (s : List Char) : Option Unit :=
  if pat.isPrefixOf s then
    match takeDigitsN 3 (s.drop pat.length) with
    | some (_, r) => if boundaryAfterWord r then some () else none
    | none => none
  else none

/-- Models `\b(SCT|FEW)(\d{3})\b` at one position. -/
def trySctFewTok (prev : Option Char) (s : List Char) : Option Unit :=
  if wordBoundary prev s.head? then
    (trySctFewAlt ("SCT").toList s) <|> (trySctFewAlt ("FEW").toList s)
  else none

/-- Whether the text matches `\b(SCT|FEW)(\d{3})\b`. -/
def sctFewTest (s : List Char) : Bool :=
  (scanFirst trySctFewTok none s).isSome

/-! ## METAR decoding (`src/utils/metarParser.ts`) -/

/-- The fields of the `METAR` interface that `parseFlightCategory`
reads. -/
structure METAR where
  fltCat : Option (List Char) := none
  flightCategory : Option FlightCategory := none
  rawOb : Option (List Char) := none
  rawText : Option (List Char) := none
  visibilityStatuteMi : Option ℚ := none
  visib : Option ℚ := none
deriving DecidableEq, Repr

/-- JavaScript falsiness of an optional number (`undefined`, or 0). -/
def jsFalsyQ : Option ℚ → Bool
  | none => true
  | some x => decide (x = 0)

/-- Models `Math.min(...)` folded over a list (empty gives `Infinity`). -/
def jsMin (a : JSNum) (b : ℚ) : JSNum :=
  match a with
  | .inf => .fin b
  | .fin q => .fin (min q b)

/-- Models `Math.min(...l)`. -/
def jsMinAll (l : List ℚ) : JSNum := l.foldl jsMin .inf

/-- Visibility resolution of `parseFlightCategory` (metarParser.ts
lines 46–82): structured `visibilityStatuteMi`; else `visib` when
positive (statute miles if the raw text contains "SM", meters
converted otherwise); else the raw-text statute-mile pattern, else the
raw-text 4-digit meters pattern. -/
def resolveVisibility (m : METAR) : Option ℚ :=
  let rawTextForVis := upper (jsOrStr3 m.rawOb m.rawText)
  let hasSM := containsSub (("SM").toList) rawTextForVis
  let vis1 : Option ℚ :=
    if jsFalsyQ m.visibilityStatuteMi then
      match m.visib with
      | some v =>
        if 0 < v then some (if hasSM then v else v * metersToMiles)
        else m.visibilityStatuteMi
      | none => m.visibilityStatuteMi
    else m.visibilityStatuteMi
  if jsFalsyQ vis1 then
    match findVisSM rawTextForVis with
    | some q => some q
    | none =>
      match findVisMeters rawTextForVis with
      | some n => some ((n : ℚ) * metersToMiles)
      | none => vis1
  else vis1

/-- Ceiling resolution of `parseFlightCategory` (metarParser.ts lines
84–109): `Math.min` over all `BKN`/`OVC`/`VV` layer heights (3 digits ×
100 ft); with no such layer, `Infinity` for clear skies or for
`SCT`/`FEW`-only clouds, else `undefined`.  (The source's
`ftMatch ? … : Infinity` re-extraction of the 3 digits always succeeds
on these matches, so the heights are taken from the scan directly.) -/
def resolveCeiling (rawTextForVis : List Char) : Option JSNum :=
  match cloudLayerMatches rawTextForVis with
  | [] =>
    if clearSkiesTest rawTextForVis then some .inf
    else if sctFewTest rawTextForVis then some .inf
    else none
  | h :: t => some (jsMinAll ((h :: t).map (fun n : Nat => ((n : ℚ) * 100))))

/-- The category determination of `parseFlightCategory` (metarParser.ts
lines 113–197) from the resolved visibility and ceiling. -/
def categorizeMetar (visibilityMi : Option ℚ) (ceilingFt : Option JSNum)
    (rawTextForVis : List Char) : FlightCategory :=
  match visibilityMi, ceilingFt with
  | some v, some c =>
    let visCategory : FlightCategory :=
      if v < 1 then .LIFR
      else if 1 ≤ v ∧ v < 3 then .IFR
      else if 3 ≤ v ∧ v < 5 then .MVFR
      else .VFR
    let ceilCategory : FlightCategory :=
      if c.ltR 500 then .LIFR
      else if c.geR 500 ∧ c.ltR 1000 then .IFR
      else if c.geR 1000 ∧ c.ltR 3000 then .MVFR
      else .VFR
    if categoryOrder visCategory < categoryOrder ceilCategory then visCategory
    else ceilCategory
  | some v, none =>
    if v < 1 then .LIFR
    else if 1 ≤ v ∧ v < 3 then .IFR
    else if 3 ≤ v ∧ v < 5 then .MVFR
    else .VFR
  | none, some c =>
    if c.ltR 500 then .LIFR
    else if c.geR 500 ∧ c.ltR 1000 then .IFR
    else if c.geR 1000 ∧ c.ltR 3000 then .MVFR
    else .VFR
  | none, none =>
    if clearSkiesTest rawTextForVis || sctFewTest rawTextForVis then .VFR
    else .UNKNOWN

/-- Models `parseFlightCategory` of metarParser.ts: API `fltCat` (validated),
then a provided `flightCategory`, then an explicit category token in
the raw text, then classification from parsed visibility and
ceiling. -/
def parseFlightCategory (m : METAR) : FlightCategory :=
  let apiCat : Option FlightCategory :=
    match m.fltCat with
    | some s => if s ≠ [] then catOfString (upper s) else none
    | none => none
  match apiCat with
  | some c => c
  | none =>
    match m.flightCategory with
    | some c => c
    | none =>
      let rawTextForCategory := upper (jsOrStr3 m.rawOb m.rawText)
      match findFlightCatTok rawTextForCategory with
      | some c => c
      | none =>
        categorizeMetar (resolveVisibility m) (resolveCeiling rawTextForCategory)
          rawTextForCategory

/-! ## TAF forecast classification (`src/utils/tafParser.ts`) -/

/-- Models `(?:P)?(\d+(?:\.\d+)?)\s*SM` at one position (the forecast
classifier's visibility regex: an optional `P`, no word boundaries). -/
def tryVisSMP (prev : Option Char) (s : List Char) : Option ℚ :=
  match s with
  | 'P' :: r =>
    match tryVisSM prev r with
    | some q => some q
    | none => tryVisSM prev s
  | _ => tryVisSM prev s

/-- First `(?:P)?(\d+(?:\.\d+)?)\s*SM` match. -/
def findVisSMP (s : List Char) : Option ℚ :=
  scanFirst tryVisSMP none s

/-- Models `\b(BKN|OVC)(\d{3})\b` at one position (the forecast classifier's
ceiling regex: first match only, no `VV`). -/
def tryCloudBO (prev : Option Char) (s : List Char) : Option Nat :=
  if wordBoundary prev s.head? then
    ((tryCloudBOVAlt ("BKN").toList s) <|> (tryCloudBOVAlt ("OVC").toList s)).map
      (fun p => p.1)
  else none

/-- First `\b(BKN|OVC)(\d{3})\b` match. -/
def findCloudBO (s : List Char) : Option Nat :=
  scanFirst tryCloudBO none s

/-- Models `\b(CLR|SKC|CAVOK|P6SM)\b` at one position. -/
def tryClearTokP6 (prev : Option Char) (s : List Char) : Option Unit :=
  if wordBoundary prev s.head? then
    (tryWordAlt ("CLR").toList s) <|> (tryWordAlt ("SKC").toList s) <|>
      (tryWordAlt ("CAVOK").toList s) <|> (tryWordAlt ("P6SM").toList s)
  else none

/-- Whether the text matches `\b(CLR|SKC|CAVOK|P6SM)\b`. -/
def clearP6Test (s : List Char) : Bool :=
  (scanFirst tryClearTokP6 none s).isSome

/-- The fields of a TAF forecast period object that
`determineFlightCategoryFromForecast` and `getNextTAFCondition`
read. -/
structure Fcst where
  flightCategory : Option (List Char) := none
  visibilityStatuteMi : Option ℚ := none
  visibility : Option ℚ := none
  ceiling : Option ℚ := none
  rawOb : Option (List Char) := none
  rawText : Option (List Char) := none
  validTimeFrom : Option Int := none
  validTimeTo : Option Int := none
deriving DecidableEq, Repr

/-- Visibility resolution of `determineFlightCategoryFromForecast`
(tafParser.ts lines 591–618): `visibilityStatuteMi` when present (a
strict `!== undefined` check — 0 is used as-is); else `visibility`
(miles when < 10, meters converted otherwise); else the raw-text
`P`-prefixed statute-mile pattern, else the meters pattern. -/
def dfcVis (f : Fcst) : Option ℚ :=
  match f.visibilityStatuteMi with
  | some v => some v
  | none =>
    match f.visibility with
    | some v => some (if v < 10 then v else v * metersToMiles)
    | none =>
      match jsOrStr f.rawOb f.rawText with
      | some _ =>
        let rawText := upper (jsOrStr3 f.rawOb f.rawText)
        match findVisSMP rawText with
        | some q => some q
        | none => (findVisMeters rawText).map (fun n => (n : ℚ) * metersToMiles)
      | none => none

/-- Ceiling resolution of `determineFlightCategoryFromForecast`
(tafParser.ts lines 620–631): `ceiling`, overridden by the first
`BKN`/`OVC` layer of the raw text when `ceiling` is falsy (absent or
0). -/
def dfcCeil (f : Fcst) : Option ℚ :=
  if jsFalsyQ f.ceiling ∧ (jsOrStr f.rawOb f.rawText).isSome then
    let rawText := upper (jsOrStr3 f.rawOb f.rawText)
    match findCloudBO rawText with
    | some n => some ((n : ℚ) * 100)
    | none => f.ceiling
  else f.ceiling

/-- Models `determineFlightCategoryFromForecast` of tafParser.ts (lines
580–691): a provided category string (validated), else the FAA table
over the resolved visibility/ceiling, taking the worse of the two
when both are present; with neither, `VFR` on a clear/`P6SM` signal
and `null` otherwise. -/
def determineFlightCategoryFromForecast (f : Fcst) : Option FlightCategory :=
  let fcCat : Option FlightCategory :=
    match f.flightCategory with
    | some s => if s ≠ [] then catOfString (upper s) else none
    | none => none
  match fcCat with
  | some c => some c
  | none =>
    match dfcVis f, dfcCeil f with
    | some v, some c =>
      let visCategory : FlightCategory :=
        if v < 1 then .LIFR
        else if 1 ≤ v ∧ v < 3 then .IFR
        else if 3 ≤ v ∧ v < 5 then .MVFR
        else .VFR
      let ceilCategory : FlightCategory :=
        if c < 500 then .LIFR
        else if 500 ≤ c ∧ c < 1000 then .IFR
        else if 1000 ≤ c ∧ c < 3000 then .MVFR
        else .VFR
      some (if categoryOrder visCategory < categoryOrder ceilCategory then visCategory
        else ceilCategory)
    | some v, none =>
      some (if v < 1 then .LIFR
        else if 1 ≤ v ∧ v < 3 then .IFR
        else if 3 ≤ v ∧ v < 5 then .MVFR
        else .VFR)
    | none, some c =>
      some (if c < 500 then .LIFR
        else if 500 ≤ c ∧ c < 1000 then .IFR
        else if 1000 ≤ c ∧ c < 3000 then .MVFR
        else .VFR)
    | none, none =>
      match jsOrStr f.rawOb f.rawText with
      | some _ =>
        if clearP6Test (upper (jsOrStr3 f.rawOb f.rawText)) then some .VFR else none
      | none => none

/-- The fields of the `TAF` interface the decoder reads. -/
structure TAF where
  rawTAF : Option (List Char) := none
  rawOb : Option (List Char) := none
  rawText : Option (List Char) := none
  fcsts : Option (List Fcst) := none
deriving DecidableEq, Repr

/-- Models `fcst.validTimeFrom || 0`. -/
def fcstValidFrom (f : Fcst) : Int := f.validTimeFrom.getD 0

/-- Models `fcst.validTimeTo || Infinity` (`none` models `Infinity`; an
explicit 0 is falsy, hence also `Infinity`). -/
def fcstValidTo (f : Fcst) : Option Int :=
  match f.validTimeTo with
  | some x => if x = 0 then none else some x
  | none => none

/-- The window test of `getNextTAFCondition`:
`validFrom >= now || (now >= validFrom && now <= validTo)`. -/
def gntWindow (nowSec : Int) (f : Fcst) : Bool :=
  let vf := fcstValidFrom f
  let leTo : Bool :=
    match fcstValidTo f with
    | none => true
    | some v => decide (nowSec ≤ v)
  decide (vf ≥ nowSec) || (decide (nowSec ≥ vf) && leTo)

/-- The scan loop of `getNextTAFCondition`: first period passing the
window test whose classification is non-null. -/
def gntScan (nowSec : Int) : List Fcst → Option FlightCategory
  | [] => none
  | f :: rest =>
    if gntWindow nowSec f then
      match determineFlightCategoryFromForecast f with
      | some c => some c
      | none => gntScan nowSec rest
    else gntScan nowSec rest

/-- Models `getNextTAFCondition` of tafParser.ts (lines 18–52), with the
`Math.floor(Date.now() / 1000)` clock read made an explicit `nowSec`
argument: scans the forecast periods for the first future-or-active
one that classifies, falling back to the last period. -/
def getNextTAFCondition (nowSec : Int) (otaf : Option TAF) : Option FlightCategory :=
  match otaf with
  | none => none
  | some taf =>
    match taf.fcsts with
    | none => none
    | some [] => none
    | some fs =>
      match gntScan nowSec fs with
      | some c => some c
      | none =>
        match fs.getLast? with
        | some lastF => determineFlightCategoryFromForecast lastF
        | none => none

/-! ## TAF period segmentation (`decodeTAFPeriods` and helpers) -/

/-- The truncated-timestamp resolution shared verbatim by
`parseTAFTimeGroup` and the `FM` branch of `parsePeriodStart` (the two
sites contain the same code): replace day, hour and minute on a copy of
the issue date, then roll the month forward (resp. back) when the
parsed day is more than 15 behind (resp. ahead of) the issue date's
day-of-month. -/
def resolveTruncated (day hour minute : Int) (issueDate : DateRec) : DateRec :=
  let r1 := setUTCDateJ issueDate day
  let r2 := setUTCHoursJ r1 hour minute
  if day < issueDate.d ∧ issueDate.d - day > 15 then setUTCMonthJ r2 (r2.m + 1)
  else if day > issueDate.d ∧ day - issueDate.d > 15 then setUTCMonthJ r2 (r2.m - 1)
  else r2

/-- Models `parseTAFTimeGroup` on a `DDHH` group that matched
`^(\d{2})(\d{2})$` (within the decoder every group handed to it comes
from a `\d{4}` regex capture, so the match always succeeds and the
`new Date()` fallback for other strings is unreachable). -/
def parseTAFTimeGroup (day hour : Int) (issueDate : DateRec) : DateRec :=
  resolveTruncated day hour 0 issueDate

/-- The change-group keywords carrying an explicit `DDHH/DDHH` range. -/
inductive RangedKw where
  | TEMPO
  | BECMG
  | PROB (p : Nat)
deriving DecidableEq, Repr

/-- A change-group token matched by the period regex
`\b(FM\d{6}|TEMPO\s+\d{4}\/\d{4}|BECMG\s+\d{4}\/\d{4}|PROB\d{2}\s+\d{4}\/\d{4})\b`,
with its digit groups parsed (as `parsePeriodStart` and the period-end
code of `decodeTAFPeriods` parse them from the matched string). -/
inductive PTok where
  | FM (d h mi : Int)
  | ranged (kw : RangedKw) (d1 h1 d2 h2 : Int)
deriving DecidableEq, Repr

/-- Models `m[0].startsWith('FM')`. -/
def isFMTok : PTok → Bool
  | .FM _ _ _ => true
  | .ranged _ _ _ _ _ => false

/-- Two decimal digits as a number. -/
def pairInt (a b : Char) : Int := ((10 * digitVal a + digitVal b : Nat) : Int)

/-- Models `\d{2}` parsed to its value. -/
def takePair (s : List Char) : Option (Int × List Char) :=
  match s with
  | a :: b :: r => if a.isDigit && b.isDigit then some (pairInt a b, r) else none
  | _ => none

/-- Models `\s+`, returning how many characters were consumed. -/
def takeSpaces1 (s : List Char) : Option (Nat × List Char) :=
  let a := s.takeWhile isSpaceChar
  if a = [] then none else some (a.length, s.drop a.length)

/-- Models `\d{4}\/\d{4}` parsed to its two `(day, hour)` groups. -/
def takeRange (s : List Char) : Option ((Int × Int) × (Int × Int) × List Char) := do
  let (d1, s1) ← takePair s
  let (h1, s2) ← takePair s1
  match s2 with
  | '/' :: s3 =>
    let (d2, s4) ← takePair s3
    let (h2, s5) ← takePair s4
    some ((d1, h1), (d2, h2), s5)
  | _ => none

/-- Models `FM\d{6}` (followed by `\b`) at one position. -/
def tryFMTok (s : List Char) : Option (PTok × Nat) :=
  if (("FM").toList).isPrefixOf s then do
    let (d, s1) ← takePair (s.drop 2)
    let (h, s2) ← takePair s1
    let (mi, s3) ← takePair s2
    if boundaryAfterWord s3 then some (.FM d h mi, 8) else none
  else none

/-- Models `\s+\d{4}\/\d{4}` (followed by `\b`) after a change-group keyword
of length `kwLen`. -/
def tryRangedTail (kw : RangedKw) (kwLen : Nat) (s : List Char) : Option (PTok × Nat) := do
  let (n, s1) ← takeSpaces1 s
  let (r1, r2, rest) ← takeRange s1
  if boundaryAfterWord rest then some (.ranged kw r1.1 r1.2 r2.1 r2.2, kwLen + n + 9)
  else none

/-- The period regex at one position (alternatives in source order). -/
def tryPeriodTok (prev : Option Char) (s : List Char) : Option (PTok × Nat) :=
  if wordBoundary prev s.head? then
    (tryFMTok s) <|>
      (if (("TEMPO").toList).isPrefixOf s then tryRangedTail .TEMPO 5 (s.drop 5) else none) <|>
      (if (("BECMG").toList).isPrefixOf s then tryRangedTail .BECMG 5 (s.drop 5) else none) <|>
      (if (("PROB").toList).isPrefixOf s then
        match takePair (s.drop 4) with
        | some (p, r) => tryRangedTail (.PROB p.toNat) 6 r
        | none => none
      else none)
  else none

/-- All change-group tokens of a bulletin with their indices
(`rawTAF.matchAll(periodRegex)`). -/
def periodTokenMatches (raw : List Char) : List (Nat × PTok) :=
  scanAll tryPeriodTok (raw.length + 1) 0 none raw

/-- Models `\b(\d{6})Z\b` at one position, parsed to day/hour/minute (as the
issue-time code parses the captured string). -/
def tryIssueTok (prev : Option Char) (s : List Char) : Option (Int × Int × Int) :=
  if wordBoundary prev s.head? then do
    let (d, s1) ← takePair s
    let (h, s2) ← takePair s1
    let (mi, s3) ← takePair s2
    match s3 with
    | 'Z' :: r => if boundaryAfterWord r then some (d, h, mi) else none
    | _ => none
  else none

/-- First `\b(\d{6})Z\b` match (the TAF issue-time header). -/
def issueTimeMatch (raw : List Char) : Option (Int × Int × Int) :=
  scanFirst tryIssueTok none raw

/-- Models `\b(\d{4})\/(\d{4})\b` at one position. -/
def tryValidRange (prev : Option Char) (s : List Char) :
    Option ((Int × Int) × (Int × Int)) :=
  if wordBoundary prev s.head? then
    match takeRange s with
    | some (r1, r2, rest) => if boundaryAfterWord rest then some (r1, r2) else none
    | none => none
  else none

/-- First `\b(\d{4})\/(\d{4})\b` match (the TAF validity range). -/
def validRangeMatch (raw : List Char) : Option ((Int × Int) × (Int × Int)) :=
  scanFirst tryValidRange none raw

/-- The issue-date computation of `decodeTAFPeriods` (tafParser.ts
lines 249–268): anchor the parsed day/hour/minute to the current
clock's year and month, then shift a month when the result is more
than 2 days ahead of or more than 28 days behind the clock; without an
issue token the clock itself (`new Date()`) is the issue date. -/
def issueAnchor (now : DateRec) (raw : List Char) : DateRec :=
  match issueTimeMatch raw with
  | none => now
  | some (day, hour, minute) =>
    let base := jsUTC now.y now.m day hour minute
    if toMin base > toMin now + 2 * 24 * 60 then setUTCMonthJ base (base.m - 1)
    else if toMin base < toMin now - 28 * 24 * 60 then setUTCMonthJ base (base.m + 1)
    else base

/-- Models `parsePeriodStart` of tafParser.ts on a matched change-group token:
`FM` tokens resolve their own day/hour/minute; ranged tokens resolve
the first `DDHH` group of their range (the source's
`typeStr.match(/(\d{4})\//)` always succeeds on them); the default
start is returned for no other token shape (unreachable here). -/
def parsePeriodStart (tok : PTok) (issueDate : DateRec) (_defaultStart : DateRec) :
    DateRec :=
  match tok with
  | .FM d h mi => resolveTruncated d h mi issueDate
  | .ranged _ d1 h1 _ _ => parseTAFTimeGroup d1 h1 issueDate

/-! ### `parsePeriodData` field extraction -/

/-- Models `KT\b`. -/
def tryKT (r : List Char) : Option Unit :=
  if (("KT").toList).isPrefixOf r ∧ boundaryAfterWord (r.drop 2) then some () else none

/-- Models `(?:G(\d{2,3}))?KT\b` with the regex's backtracking (greedy gust
first, 3 digits before 2, then the gust group skipped). -/
def tryGust (r : List Char) : Option (Option Int) :=
  (match r with
   | 'G' :: r2 =>
     (do
       let (ds, r3) ← takeDigitsN 3 r2
       let _ ← tryKT r3
       some (some ((natOfDigits ds : Nat) : Int))) <|>
     (do
       let (ds, r3) ← takeDigitsN 2 r2
       let _ ← tryKT r3
       some (some ((natOfDigits ds : Nat) : Int)))
   | _ => none) <|>
  (do
    let _ ← tryKT r
    some none)

/-- Models `(\d{2,3})` speed followed by the gust/`KT` tail. -/
def trySpeedTail (rest : List Char) : Option (Int × Option Int) :=
  (do
    let (ds, r) ← takeDigitsN 3 rest
    let g ← tryGust r
    some (((natOfDigits ds : Nat) : Int), g)) <|>
  (do
    let (ds, r) ← takeDigitsN 2 rest
    let g ← tryGust r
    some (((natOfDigits ds : Nat) : Int), g))

/-- Models `\b(\d{3}|VRB)(\d{2,3})(?:G(\d{2,3}))?KT\b` at one position;
captures (direction — `none` for `VRB`, speed, gust). -/
def tryWind (prev : Option Char) (s : List Char) : Option (Option Int × Int × Option Int) :=
  if wordBoundary prev s.head? then
    (do
      let (ds, r) ← takeDigitsN 3 s
      let (sp, g) ← trySpeedTail r
      some (some ((natOfDigits ds : Nat) : Int), sp, g)) <|>
    (if (("VRB").toList).isPrefixOf s then
      (trySpeedTail (s.drop 3)).map (fun p => (none, p.1, p.2))
    else none)
  else none

/-- The shape of the visibility capture of
`\b(?:P)?(\d+(?:\s\d+\/\d+)?|\d+\/\d+|\d+(?:\.\d+)?)\s*SM\b`, mirroring
which alternative produced it (the source branches on whether the
captured string contains `/` and a space). -/
inductive VisTok where
  | mixed (w n d : Nat)
  | fracOnly (n d : Nat)
  | plain (ip fp : List Char)
deriving DecidableEq, Repr

/-- The numeric value `parsePeriodData` computes from a visibility
capture (`parseInt`/`parseFloat` on the split pieces). -/
def visTokValue : VisTok → ℚ
  | .mixed w n d => (w : ℚ) + (n : ℚ) / (d : ℚ)
  | .fracOnly n d => (n : ℚ) / (d : ℚ)
  | .plain ip fp => ratOfDec ip fp

/-- Models `\s*SM\b` (the tail of the visibility regex). -/
def visTail (r : List Char) : Bool :=
  let r2 := r.dropWhile isSpaceChar
  (("SM").toList).isPrefixOf r2 && boundaryAfterWord (r2.drop 2)

/-- The visibility alternation of `parsePeriodData` at a position
(after the optional `P`), alternatives and backtracking in regex
order. -/
def tryVisBody (s : List Char) : Option VisTok :=
  (do
    let (w, r1) ← takeDigits1 s
    (match r1 with
     | c :: r2 =>
       if isSpaceChar c then do
         let (n, r3) ← takeDigits1 r2
         match r3 with
         | '/' :: r4 => do
           let (d, r5) ← takeDigits1 r4
           if visTail r5 then
             some (VisTok.mixed (natOfDigits w) (natOfDigits n) (natOfDigits d))
           else none
         | _ => none
       else none
     | [] => none) <|>
    (if visTail r1 then some (VisTok.plain w []) else none)) <|>
  (do
    let (n, r1) ← takeDigits1 s
    match r1 with
    | '/' :: r2 => do
      let (d, r3) ← takeDigits1 r2
      if visTail r3 then some (VisTok.fracOnly (natOfDigits n) (natOfDigits d)) else none
    | _ => none) <|>
  (do
    let (ip, r1) ← takeDigits1 s
    (match r1 with
     | '.' :: r2 => do
       let (fp, r3) ← takeDigits1 r2
       if visTail r3 then some (VisTok.plain ip fp) else none
     | _ => none) <|>
    (if visTail r1 then some (VisTok.plain ip []) else none))

/-- The full visibility regex of `parsePeriodData` at one position. -/
def tryVisP (prev : Option Char) (s : List Char) : Option VisTok :=
  if wordBoundary prev s.head? then
    match s with
    | 'P' :: r =>
      match tryVisBody r with
      | some v => some v
      | none => tryVisBody s
    | _ => tryVisBody s
  else none

/-- Models `(?:^|\s)(\d{4})(?:\s|$)` at one position (the international
meters fallback of `parsePeriodData`). -/
def tryMeterP (prev : Option Char) (s : List Char) : Option Nat :=
  let endOrSpace : List Char → Bool := fun r =>
    match r.head? with
    | none => true
    | some c => isSpaceChar c
  (if prev = none then
    (do
      let (ds, r) ← takeDigitsN 4 s
      if endOrSpace r then some (natOfDigits ds) else none)
  else none) <|>
  (match s with
   | c :: r =>
     if isSpaceChar c then do
       let (ds, r2) ← takeDigitsN 4 r
       if endOrSpace r2 then some (natOfDigits ds) else none
     else none
   | [] => none)

/-- Cloud-cover keywords of the cloud regex of `parsePeriodData`. -/
inductive CloudCover where
  | SKC
  | CLR
  | FEW
  | SCT
  | BKN
  | OVC
  | VV
deriving DecidableEq, Repr

/-- The keyword's characters. -/
def coverStr : CloudCover → List Char
  | .SKC => ("SKC").toList
  | .CLR => ("CLR").toList
  | .FEW => ("FEW").toList
  | .SCT => ("SCT").toList
  | .BKN => ("BKN").toList
  | .OVC => ("OVC").toList
  | .VV => ("VV").toList

/-- The optional height group `(\d{3}|\/\/\/)?` of a cloud match. -/
inductive CloudHt where
  | digits (ds : List Char)
  | slashes
  | missing
deriving DecidableEq, Repr

/-- Models `(?:CB|TCU)?\b` after the height, with backtracking (suffix
alternatives first, then no suffix); `lastC` is the character just
before, for the `\b`. -/
def tryCloudTail (lastC : Char) (r : List Char) : Option (Option (List Char) × Nat) :=
  (if (("CB").toList).isPrefixOf r ∧ boundaryAfterWord (r.drop 2) then
    some (some (("CB").toList), 2)
  else none) <|>
  (if (("TCU").toList).isPrefixOf r ∧ boundaryAfterWord (r.drop 3) then
    some (some (("TCU").toList), 3)
  else none) <|>
  (if wordBoundary (some lastC) r.head? then some (none, 0) else none)

/-- One cover alternative of the cloud regex
`\b(SKC|CLR|FEW|SCT|BKN|OVC|VV)(\d{3}|\/\/\/)?(?:CB|TCU)?\b`. -/
def tryCloudCov (cov : CloudCover) (s : List Char) :
    Option ((CloudCover × CloudHt × Option (List Char)) × Nat) :=
  let pat := coverStr cov
  if pat.isPrefixOf s then
    let r0 := s.drop pat.length
    let kwLen := pat.length
    (match takeDigitsN 3 r0 with
     | some (ds, r) =>
       (tryCloudTail (ds.getLast?.getD ' ') r).map
         (fun p => ((cov, .digits ds, p.1), kwLen + 3 + p.2))
     | none => none) <|>
    (if (('/') :: ('/') :: ('/') :: []).isPrefixOf r0 then
      (tryCloudTail '/' (r0.drop 3)).map
        (fun p => ((cov, .slashes, p.1), kwLen + 3 + p.2))
    else none) <|>
    ((tryCloudTail (pat.getLast?.getD ' ') r0).map
      (fun p => ((cov, .missing, p.1), kwLen + p.2)))
  else none

/-- The cloud regex at one position (covers tried in source order). -/
def tryCloudTok (prev : Option Char) (s : List Char) :
    Option ((CloudCover × CloudHt × Option (List Char)) × Nat) :=
  if wordBoundary prev s.head? then
    (tryCloudCov .SKC s) <|> (tryCloudCov .CLR s) <|> (tryCloudCov .FEW s) <|>
      (tryCloudCov .SCT s) <|> (tryCloudCov .BKN s) <|> (tryCloudCov .OVC s) <|>
      (tryCloudCov .VV s)
  else none

/-- All cloud matches of a period text. -/
def cloudTokMatches (text : List Char) :
    List (Nat × (CloudCover × CloudHt × Option (List Char))) :=
  scanAll tryCloudTok (text.length + 1) 0 none text

/-- The two-letter present-weather codes of the weather regex, in
source order. -/
def wxCodes : List (List Char) :=
  [("MI").toList, ("BC").toList, ("DR").toList, ("BL").toList, ("SH").toList,
   ("TS").toList, ("FZ").toList, ("PR").toList, ("PL").toList, ("RA").toList,
   ("DZ").toList, ("SN").toList, ("SG").toList, ("GR").toList, ("GS").toList,
   ("UP").toList, ("BR").toList, ("FG").toList, ("FU").toList, ("VA").toList,
   ("DU").toList, ("SA").toList, ("HZ").toList, ("PY").toList, ("PO").toList,
   ("SQ").toList, ("FC").toList, ("SS").toList, ("DS").toList]

/-- Greedy run of weather-code pairs, as (codes, rest). -/
def wxMunch : Nat → List Char → List (List Char) × List Char
  | 0, s => ([], s)
  | fuel + 1, s =>
    match wxCodes.find? (fun c => c.isPrefixOf s) with
    | some c =>
      let p := wxMunch fuel (s.drop 2)
      (c :: p.1, p.2)
    | none => ([], s)

/-- Backtracking over the number of pairs kept: the largest `k ≤ n`
with a word boundary after `2k` characters. -/
def wxPick (s : List Char) : Nat → Option Nat
  | 0 => none
  | k + 1 =>
    if boundaryAfterWord (s.drop (2 * (k + 1))) then some (k + 1) else wxPick s k

/-- Models `(?:CODE)+\b` from a position: greedy pairs, backing off until the
boundary holds. -/
def tryWxPairs (s : List Char) : Option (List Char × Nat) :=
  let m := wxMunch (s.length + 1) s
  match wxPick s m.1.length with
  | some k => some (((m.1.take k).flatten, 2 * k))
  | none => none

/-- Models `(?:VC)?(?:CODE)+\b` from a position (the `VC` prefix tried first,
then skipped). -/
def tryWxAfterSign (s : List Char) : Option (List Char × Nat) :=
  (if (("VC").toList).isPrefixOf s then
    (tryWxPairs (s.drop 2)).map (fun p => (("VC").toList ++ p.1, 2 + p.2))
  else none) <|>
  tryWxPairs s

/-- The weather regex
`\b([+-]?(?:VC)?(?:MI|BC|…|DS)+)\b` at one position; yields the matched
code string and length. -/
def tryWx (prev : Option Char) (s : List Char) : Option (List Char × Nat) :=
  if wordBoundary prev s.head? then
    (match s with
     | c :: r =>
       if c = '+' ∨ c = '-' then
         match tryWxAfterSign r with
         | some p => some (c :: p.1, p.2 + 1)
         | none => tryWxAfterSign s
       else tryWxAfterSign s
     | [] => tryWxAfterSign s)
  else none

/-- All weather matches of a period text. -/
def wxMatches (text : List Char) : List (List Char) :=
  (scanAll tryWx (text.length + 1) 0 none text).map (fun p => p.2)

/-- The structure keywords filtered out of weather matches. -/
def wxKeywordFilter : List (List Char) :=
  [("TEMPO").toList, ("BECMG").toList, ("PROB").toList, ("AUTO").toList,
   ("NOSIG").toList, ("CAVOK").toList, ("RMK").toList]

/-- The result record of `parsePeriodData`
(`Partial<DecodedTAFPeriod>`: every field optional). -/
structure PeriodData where
  visibilityMi : Option ℚ := none
  ceilingFt : Option ℚ := none
  windDir : Option Int := none
  windSpeed : Option Int := none
  windGust : Option Int := none
  clouds : Option (List (List Char)) := none
  weather : Option (List (List Char)) := none
deriving DecidableEq, Repr

/-- The cloud-loop body of `parsePeriodData`: push the layer string;
a `BKN`/`OVC`/`VV` layer with a numeric height sets the ceiling if none
is set yet. -/
def cloudStep (pd : PeriodData) (m : Nat × (CloudCover × CloudHt × Option (List Char))) :
    PeriodData :=
  match m.2 with
  | (cov, .digits ds, _) =>
    let cloudStr := coverStr cov ++ ds
    let pd1 := { pd with clouds := some ((pd.clouds.getD []) ++ [cloudStr]) }
    if (cov = .BKN ∨ cov = .OVC ∨ cov = .VV) ∧ pd1.ceilingFt = none then
      { pd1 with ceilingFt := some ((natOfDigits ds : ℚ) * 100) }
    else pd1
  | (cov, ht, suf) =>
    let m0 := coverStr cov ++
      (match ht with | .slashes => ('/') :: ('/') :: ('/') :: [] | _ => []) ++
      (suf.getD [])
    { pd with clouds := some ((pd.clouds.getD []) ++ [m0]) }

/-- Models `parsePeriodData` of tafParser.ts (lines 439–530): wind, visibility
(statute miles with fractions, or the 4-digit meters heuristic), cloud
layers with the first-`BKN`/`OVC`/`VV` ceiling, and filtered weather
codes. -/
def parsePeriodData (text : List Char) : PeriodData :=
  let pd0 : PeriodData := {}
  let pd1 : PeriodData :=
    match scanFirst tryWind none text with
    | some (dir, sp, g) => { pd0 with windDir := dir, windSpeed := some sp, windGust := g }
    | none => pd0
  let pd2 : PeriodData :=
    match scanFirst tryVisP none text with
    | some vt => { pd1 with visibilityMi := some (visTokValue vt) }
    | none =>
      match scanFirst tryMeterP none text with
      | some val =>
        if val ≠ 9999 ∧ (val < 1900 ∨ val > 2100) then
          { pd1 with visibilityMi := some ((val : ℚ) * metersToMiles) }
        else if val = 9999 then { pd1 with visibilityMi := some 7 }
        else pd1
      | none => pd1
  let pd3 := (cloudTokMatches text).foldl cloudStep pd2
  let wfiltered := (wxMatches text).filter (fun code =>
    !(wxKeywordFilter.any (fun k => containsSub k code)) &&
    (!(decide (code.headD ' ' = 'R')) || !(code.any Char.isDigit)))
  if wfiltered ≠ [] then { pd3 with weather := some wfiltered } else pd3

/-- The `DecodedTAFPeriod` interface of tafParser.ts. -/
structure DecodedTAFPeriod where
  validTimeFrom : DateRec
  validTimeTo : DateRec
  visibilityMi : Option ℚ := none
  ceilingFt : Option ℚ := none
  windDir : Option Int := none
  windSpeed : Option Int := none
  windGust : Option Int := none
  flightCategory : Option FlightCategory := none
  rawText : Option (List Char) := none
  clouds : Option (List (List Char)) := none
  weather : Option (List (List Char)) := none
deriving DecidableEq, Repr

/-- Models `taf.rawTAF || taf.rawOb || taf.rawText || ''`. -/
def tafRawOf (taf : TAF) : List Char :=
  match jsOrStr taf.rawTAF (jsOrStr taf.rawOb taf.rawText) with
  | some s => s
  | none => []

/-- Builds one decoded period from a change-group token and classifies
it (the loop body of `decodeTAFPeriods`, tafParser.ts lines 315–407):
an `FM` period ends at the start of the next `FM` token anywhere later
(the next token directly if it is an `FM`), else at the overall
validity end; a ranged period ends at the second `DDHH` of its own
range. -/
def mkTailPeriod (issueDate validFrom validTo : DateRec) (raw : List Char)
    (ms : List (Nat × PTok)) (i : Nat) (m : Nat × PTok) : DecodedTAFPeriod :=
  let startIdx := m.1
  let tok := m.2
  let endIdx : Nat :=
    match ms[i + 1]? with
    | some m2 => m2.1
    | none => raw.length
  let text := (raw.take endIdx).drop startIdx
  let periodFrom := parsePeriodStart tok issueDate validFrom
  let periodTo : DateRec :=
    match tok with
    | .FM _ _ _ =>
      match ms[i + 1]? with
      | some m2 =>
        if isFMTok m2.2 then parsePeriodStart m2.2 issueDate validFrom
        else
          match (ms.drop (i + 1)).find? (fun p => isFMTok p.2) with
          | some mFM => parsePeriodStart mFM.2 issueDate validFrom
          | none => validTo
      | none => validTo
    | .ranged _ _ _ d2 h2 => parseTAFTimeGroup d2 h2 issueDate
  let data := parsePeriodData text
  let p : DecodedTAFPeriod :=
    { validTimeFrom := periodFrom, validTimeTo := periodTo,
      visibilityMi := data.visibilityMi, ceilingFt := data.ceilingFt,
      windDir := data.windDir, windSpeed := data.windSpeed, windGust := data.windGust,
      flightCategory := none, rawText := some text,
      clouds := data.clouds, weather := data.weather }
  { p with
    flightCategory := determineFlightCategoryFromForecast
      { rawOb := some text, visibilityStatuteMi := p.visibilityMi,
        ceiling := p.ceilingFt } }

/-- The initial period followed by one period per change-group token
(the pre-sort `periods` array of `decodeTAFPeriods`). -/
def buildPeriods (issueDate validFrom validTo : DateRec) (raw : List Char)
    (ms : List (Nat × PTok)) : List DecodedTAFPeriod :=
  let initialEndIdx : Nat :=
    match ms.head? with
    | some m => m.1
    | none => raw.length
  let initialText := raw.take initialEndIdx
  let initialEndTime : DateRec :=
    match ms.head? with
    | some m => parsePeriodStart m.2 issueDate validFrom
    | none => validTo
  let idata := parsePeriodData initialText
  let ip : DecodedTAFPeriod :=
    { validTimeFrom := validFrom, validTimeTo := initialEndTime,
      visibilityMi := idata.visibilityMi, ceilingFt := idata.ceilingFt,
      windDir := idata.windDir, windSpeed := idata.windSpeed, windGust := idata.windGust,
      flightCategory := none, rawText := some initialText,
      clouds := idata.clouds, weather := idata.weather }
  let ip := { ip with
    flightCategory := determineFlightCategoryFromForecast
      { rawOb := some initialText, visibilityStatuteMi := ip.visibilityMi,
        ceiling := ip.ceilingFt } }
  ip :: ms.enum.map (fun p => mkTailPeriod issueDate validFrom validTo raw ms p.1 p.2)

/-- Stable insertion for the final sort by period start time
(`periods.sort((a, b) => a.validTimeFrom.getTime() - b.validTimeFrom.getTime())`). -/
def insertPeriod (p : DecodedTAFPeriod) : List DecodedTAFPeriod → List DecodedTAFPeriod
  | [] => [p]
  | q :: rest =>
    if toMin p.validTimeFrom < toMin q.validTimeFrom then p :: q :: rest
    else q :: insertPeriod p rest

/-- Stable sort of the decoded periods by start time. -/
def sortPeriods (l : List DecodedTAFPeriod) : List DecodedTAFPeriod :=
  l.foldr insertPeriod []

/-- Models `decodeTAFPeriods` of tafParser.ts (lines 243–411), with the
`new Date()` clock reads made an explicit `now` argument: empty result
for a null TAF or empty raw text; otherwise the issue date is anchored
to the clock, the validity range is parsed (default: issue to issue +
24 h), and the initial period plus one period per change-group token
are built and sorted by start time. -/
def decodeTAFPeriods (now : DateRec) (otaf : Option TAF) : List DecodedTAFPeriod :=
  match otaf with
  | none => []
  | some taf =>
    let rawTAF := tafRawOf taf
    if rawTAF = [] then []
    else
      let issueDate := issueAnchor now rawTAF
      let vr : DateRec × DateRec :=
        match validRangeMatch rawTAF with
        | some (r1, r2) =>
          (parseTAFTimeGroup r1.1 r1.2 issueDate, parseTAFTimeGroup r2.1 r2.2 issueDate)
        | none => (issueDate, normDate ⟨issueDate.y, issueDate.m, issueDate.d + 1,
            issueDate.h, issueDate.mi⟩)
      let ms := periodTokenMatches rawTAF
      sortPeriods (buildPeriods issueDate vr.1 vr.2 rawTAF ms)

/-! ## Specification-side definitions

These follow the wording of the specification (FAA table, worst-of-two
combination) and are compared with the definitions embedded from the
source. -/

/-- The FAA visibility table as the specification states it:
v < 1 → LIFR, 1 ≤ v < 3 → IFR, 3 ≤ v < 5 → MVFR, v ≥ 5 → VFR. -/
def specVisCategory (v : ℚ) : FlightCategory :=
  if v < 1 then .LIFR else if v < 3 then .IFR else if v < 5 then .MVFR else .VFR

/-- The FAA ceiling table as the specification states it:
c < 500 → LIFR, 500 ≤ c < 1000 → IFR, 1000 ≤ c < 3000 → MVFR,
c ≥ 3000 → VFR. -/
def specCeilCategory (c : ℚ) : FlightCategory :=
  if c < 500 then .LIFR else if c < 1000 then .IFR else if c < 3000 then .MVFR
  else .VFR

/-- Minimum of two categories on the order LIFR < IFR < MVFR < VFR. -/
def catMin (a b : FlightCategory) : FlightCategory :=
  if categoryOrder a ≤ categoryOrder b then a else b

/-! ## Claim-support definitions

Concrete inputs and claim-side notions used by the claim theorems. -/

/-- The example bulletin of the specification's testable properties. -/
def c2Bulletin : List Char :=
  ("TAF KXYZ 010600Z 0106/0206 18010KT P6SM FEW250 FM012000 22015G25KT 3SM BKN015").toList

/-- A fixed decode instant, 2024-01-15 00:00 UTC (the decoder anchors
the issue month to the clock; any instant in the issue month with no
month-boundary adjustment gives the same timeline). -/
def c2Now : DateRec := ⟨2024, 0, 15, 0, 0⟩

/-- A METAR with a structured visibility of 0 whose raw text carries
only a 2000 ft ceiling (no parseable visibility). -/
def c9Metar : METAR :=
  { visibilityStatuteMi := some 0, rawOb := some (("KXYZ BKN020").toList) }

/-- The raw-text visibility fallback chain (statute miles, else
meters), as the amended claim describes it. -/
def rawVisFallback (m : METAR) : Option ℚ :=
  let raw := upper (jsOrStr3 m.rawOb m.rawText)
  match findVisSM raw with
  | some q => some q
  | none => (findVisMeters raw).map (fun n => (n : ℚ) * metersToMiles)

/-- The ceiling contribution of one cloud match, as the amended claim
describes the TAF rule: the height of a `BKN`/`OVC`/`VV` layer with a
numeric height. -/
def cloudPick (m : Nat × (CloudCover × CloudHt × Option (List Char))) : Option ℚ :=
  match m.2 with
  | (cov, .digits ds, _) =>
    if cov = .BKN ∨ cov = .OVC ∨ cov = .VV then some ((natOfDigits ds : ℚ) * 100)
    else none
  | _ => none

/-- The first qualifying layer of a period text. -/
def firstCeilingLayer (text : List Char) : Option ℚ :=
  (cloudTokMatches text).findSome? cloudPick

/-- A period that is active at `now = 150` but carries no weather data
(classifies to `null`). -/
def c4Fcst1 : Fcst := { validTimeFrom := some 100, validTimeTo := some 200 }

/-- A later period that classifies (visibility 10 → VFR). -/
def c4Fcst2 : Fcst :=
  { validTimeFrom := some 300, validTimeTo := some 400, visibilityStatuteMi := some 10 }

/-- The two-period bulletin of the C4 counterexample. -/
def c4TAF : TAF := { fcsts := some [c4Fcst1, c4Fcst2] }

/-- Rolled forward one month: the calendar month after, as the claim
intends it. -/
def monthSucc (x : DateRec) : DateRec :=
  if x.m = 11 then ⟨x.y + 1, 0, x.d, x.h, x.mi⟩ else ⟨x.y, x.m + 1, x.d, x.h, x.mi⟩

/-- Rolled back one month: the calendar month before, as the claim
intends it. -/
def monthPred (x : DateRec) : DateRec :=
  if x.m = 0 then ⟨x.y - 1, 11, x.d, x.h, x.mi⟩ else ⟨x.y, x.m - 1, x.d, x.h, x.mi⟩

/-- Closed witness for C6: a bulletin with an `FM`, an intervening
`TEMPO`, a later `FM`, and a trailing `TEMPO`, checked at concrete
token indices. -/
def c6Bulletin : List Char :=
  ("TAF KXYZ 010600Z 0106/0212 P6SM FM011000 4SM TEMPO 0112/0114 2SM FM012000 3SM TEMPO 0200/0202 1SM").toList

@[simp] theorem JSNum.ltR_fin (q r : ℚ) : (JSNum.fin q).ltR r ↔ q < r := Iff.rfl

@[simp] theorem JSNum.geR_fin (q r : ℚ) : (JSNum.fin q).geR r ↔ r ≤ q := Iff.rfl

/-- The source's redundant visibility if-chain computes the spec
table. -/
theorem visChain_eq (v : ℚ) :
    (if v < 1 then FlightCategory.LIFR
     else if 1 ≤ v ∧ v < 3 then FlightCategory.IFR
     else if 3 ≤ v ∧ v < 5 then FlightCategory.MVFR
     else FlightCategory.VFR) = specVisCategory v := by
  unfold specVisCategory
  by_cases h1 : v < 1
  · simp [h1]
  · by_cases h3 : v < 3
    · simp [h1, h3, not_lt.mp h1]
    · by_cases h5 : v < 5
      · simp [h1, h3, h5, not_lt.mp h3]
      · simp [h1, h3, h5]

/-- The source's redundant ceiling if-chain computes the spec table. -/
theorem ceilChain_eq (c : ℚ) :
    (if c < 500 then FlightCategory.LIFR
     else if 500 ≤ c ∧ c < 1000 then FlightCategory.IFR
     else if 1000 ≤ c ∧ c < 3000 then FlightCategory.MVFR
     else FlightCategory.VFR) = specCeilCategory c := by
  unfold specCeilCategory
  by_cases h1 : c < 500
  · simp [h1]
  · by_cases h3 : c < 1000
    · simp [h1, h3, not_lt.mp h1]
    · by_cases h5 : c < 3000
      · simp [h1, h3, h5, not_lt.mp h3]
      · simp [h1, h3, h5]

/-- The source's strict-order pick of the worse category agrees with
the order minimum away from `UNKNOWN`. -/
theorem worse_eq_catMin (a b : FlightCategory) :
    (if categoryOrder a < categoryOrder b then a else b) = catMin a b := by
  cases a <;> cases b <;> decide

/-- The spec tables never yield `UNKNOWN`. -/
theorem specVisCategory_ne (v : ℚ) : specVisCategory v ≠ .UNKNOWN := by
  unfold specVisCategory; split_ifs <;> decide

/-- The spec ceiling table never yields `UNKNOWN`. -/
theorem specCeilCategory_ne (c : ℚ) : specCeilCategory c ≠ .UNKNOWN := by
  unfold specCeilCategory; split_ifs <;> decide

/-! ## Claim C1 -/

/-- Claim C1: for every visibility v (statute miles) and ceiling c
(feet AGL), the classifiers (the METAR category determination and the
TAF forecast classifier) assign the visibility category by the table
v < 1 → LIFR, 1 ≤ v < 3 → IFR, 3 ≤ v < 5 → MVFR, v ≥ 5 → VFR, the
ceiling category by c < 500 → LIFR, 500 ≤ c < 1000 → IFR,
1000 ≤ c < 3000 → MVFR, c ≥ 3000 → VFR, and when both are known return
exactly the minimum of the two categories on the order
LIFR < IFR < MVFR < VFR; when only one is known they return that one's
category alone. -/
theorem claim1_classifier_thresholds_and_min (v c : ℚ) (raw : List Char) :
    categorizeMetar (some v) (some (.fin c)) raw
        = catMin (specVisCategory v) (specCeilCategory c) ∧
    categorizeMetar (some v) none raw = specVisCategory v ∧
    categorizeMetar none (some (.fin c)) raw = specCeilCategory c ∧
    determineFlightCategoryFromForecast
        { visibilityStatuteMi := some v, ceiling := some c }
        = some (catMin (specVisCategory v) (specCeilCategory c)) ∧
    determineFlightCategoryFromForecast { visibilityStatuteMi := some v }
        = some (specVisCategory v) ∧
    determineFlightCategoryFromForecast { ceiling := some c }
        = some (specCeilCategory c) := by
  refine ⟨?_, ?_, ?_, ?_, ?_, ?_⟩
  · simp only [categorizeMetar, JSNum.ltR_fin, JSNum.geR_fin]
    rw [visChain_eq, ceilChain_eq, worse_eq_catMin]
  · simp only [categorizeMetar]
    rw [visChain_eq]
  · simp only [categorizeMetar, JSNum.ltR_fin, JSNum.geR_fin]
    rw [ceilChain_eq]
  · have hv : dfcVis { visibilityStatuteMi := some v, ceiling := some c } = some v := rfl
    have hc : dfcCeil { visibilityStatuteMi := some v, ceiling := some c } = some c := by
      simp [dfcCeil, jsOrStr]
    simp only [determineFlightCategoryFromForecast, hv, hc]
    rw [visChain_eq, ceilChain_eq, worse_eq_catMin]
  · have hv : dfcVis { visibilityStatuteMi := some v } = some v := rfl
    have hc : dfcCeil ({ visibilityStatuteMi := some v } : Fcst) = none := by
      simp [dfcCeil, jsOrStr]
    simp only [determineFlightCategoryFromForecast, hv, hc]
    rw [visChain_eq]
  · have hv : dfcVis ({ ceiling := some c } : Fcst) = none := rfl
    have hc : dfcCeil ({ ceiling := some c } : Fcst) = some c := by
      simp [dfcCeil, jsOrStr]
    simp only [determineFlightCategoryFromForecast, hv, hc]
    rw [ceilChain_eq]

/-! ## Claim C2 -/

/-- Claim C2 counterexample: decoding the example bulletin yields
exactly two periods, and the second period has visibility 3.0 statute
miles and ceiling 1500 ft as claimed, but its flight category is MVFR,
not IFR: 3 statute miles and 1500 ft both lie in the MVFR band
(3 ≤ v < 5, 1000 ≤ c < 3000) of the decoder's own FAA table. -/
theorem claim2_counterexample :
    (decodeTAFPeriods c2Now (some { rawTAF := some c2Bulletin })).length = 2 ∧
    ((decodeTAFPeriods c2Now (some { rawTAF := some c2Bulletin })).get? 1).map
        (fun p => (p.visibilityMi, p.ceilingFt)) = some (some 3, some 1500) ∧
    ¬ ((decodeTAFPeriods c2Now (some { rawTAF := some c2Bulletin })).get? 1).map
        (fun p => p.flightCategory) = some (some .IFR) := by
  refine ⟨?_, ?_, ?_⟩ <;> with_unfolding_all decide

/-- Claim C2 (amended): decoding the bulletin
`TAF KXYZ 010600Z 0106/0206 18010KT P6SM FEW250 FM012000 22015G25KT 3SM BKN015`
produces exactly two forecast periods, and the second period has
visibility 3.0 statute miles, ceiling 1500 feet, and flight category
MVFR. -/
theorem claim2_second_period_decoded :
    (decodeTAFPeriods c2Now (some { rawTAF := some c2Bulletin })).length = 2 ∧
    ((decodeTAFPeriods c2Now (some { rawTAF := some c2Bulletin })).get? 1).map
        (fun p => (p.visibilityMi, p.ceilingFt, p.flightCategory))
      = some (some 3, some 1500, some .MVFR) := by
  constructor <;> with_unfolding_all decide

/-! ## Claim C9 -/

/-- Claim C9 counterexample: a structured zero is not simply discarded.
With `visibilityStatuteMi = 0` and no raw-text visibility, the METAR
classifier keeps the 0 and returns LIFR, while the same report with the
field absent returns MVFR (ceiling only); and the TAF forecast
classifier uses a structured `visibilityStatuteMi = 0` (and a
structured `ceiling = 0` with no raw clouds) directly, returning LIFR
on the strength of the structured field alone. -/
theorem claim9_counterexample :
    parseFlightCategory c9Metar = .LIFR ∧
    parseFlightCategory { c9Metar with visibilityStatuteMi := none } = .MVFR ∧
    determineFlightCategoryFromForecast { visibilityStatuteMi := some 0 } = some .LIFR ∧
    determineFlightCategoryFromForecast { ceiling := some 0 } = some .LIFR := by
  refine ⟨?_, ?_, ?_, ?_⟩ <;> with_unfolding_all decide

/-- Claim C9 (amended): in the METAR parser a structured visibility of
0 (and likewise a `visib` of 0, which is never used) triggers fallback
to raw-text parsing, and a parsed raw value replaces the zero — but
when the raw text yields no visibility the zero itself survives and is
classified (as LIFR).  In the TAF forecast classifier a structured
visibility of 0 is used directly, and a structured ceiling of 0 is
bypassed in favour of the first raw-text cloud layer but survives when
no layer is found. -/
theorem claim9_zero_field_handling :
    (∀ m : METAR, m.visibilityStatuteMi = some 0 → m.visib = none →
      resolveVisibility m = some ((rawVisFallback m).getD 0)) ∧
    (∀ m : METAR, m.visibilityStatuteMi = none → m.visib = some 0 →
      resolveVisibility m = rawVisFallback m) ∧
    (∀ f : Fcst, f.visibilityStatuteMi = some 0 → dfcVis f = some 0) ∧
    (∀ f : Fcst, f.ceiling = some 0 → (jsOrStr f.rawOb f.rawText).isSome →
      dfcCeil f = some ((Option.map (fun n => (n : ℚ) * 100)
        (findCloudBO (upper (jsOrStr3 f.rawOb f.rawText)))).getD 0)) := by
  refine ⟨?_, ?_, ?_, ?_⟩
  · intro m h1 h2
    cases hsm : findVisSM (upper (jsOrStr3 m.rawOb m.rawText)) with
    | some q => simp [resolveVisibility, rawVisFallback, h1, h2, jsFalsyQ, hsm]
    | none =>
      cases hm : findVisMeters (upper (jsOrStr3 m.rawOb m.rawText)) with
      | some n => simp [resolveVisibility, rawVisFallback, h1, h2, jsFalsyQ, hsm, hm]
      | none => simp [resolveVisibility, rawVisFallback, h1, h2, jsFalsyQ, hsm, hm]
  · intro m h1 h2
    cases hsm : findVisSM (upper (jsOrStr3 m.rawOb m.rawText)) with
    | some q => simp [resolveVisibility, rawVisFallback, h1, h2, jsFalsyQ, hsm]
    | none =>
      cases hm : findVisMeters (upper (jsOrStr3 m.rawOb m.rawText)) with
      | some n => simp [resolveVisibility, rawVisFallback, h1, h2, jsFalsyQ, hsm, hm]
      | none => simp [resolveVisibility, rawVisFallback, h1, h2, jsFalsyQ, hsm, hm]
  · intro f h
    unfold dfcVis
    rw [h]
  · intro f h1 h2
    cases hc : findCloudBO (upper (jsOrStr3 f.rawOb f.rawText)) with
    | some n => simp [dfcCeil, h1, h2, jsFalsyQ, hc]
    | none => simp [dfcCeil, h1, h2, jsFalsyQ, hc]

/-- Closed witness for the amended C9 theorem at concrete inputs. -/
theorem claim9_witness :
    resolveVisibility c9Metar = some ((rawVisFallback c9Metar).getD 0) ∧
    dfcVis { visibilityStatuteMi := some 0 } = some 0 ∧
    dfcCeil { ceiling := some 0, rawOb := some (("KXYZ BKN020").toList) }
      = some ((Option.map (fun n => (n : ℚ) * 100)
          (findCloudBO (upper (jsOrStr3 (some (("KXYZ BKN020").toList)) none)))).getD 0) :=
  ⟨claim9_zero_field_handling.1 c9Metar rfl rfl,
   claim9_zero_field_handling.2.2.1 _ rfl,
   claim9_zero_field_handling.2.2.2 _ rfl (by decide)⟩

/-! ## Claim C8 -/

/-- Claim C8 counterexample: on a report with no cloud groups, no
visibility and no clear-sky marker, the METAR classifier does return
UNKNOWN, but the TAF forecast classifier returns `null` (no category),
not the explicit UNKNOWN category. -/
theorem claim8_counterexample :
    determineFlightCategoryFromForecast { rawOb := some (("KXYZ 123456Z").toList) }
        = none ∧
    ¬ determineFlightCategoryFromForecast { rawOb := some (("KXYZ 123456Z").toList) }
        = some .UNKNOWN := by
  constructor <;> with_unfolding_all decide

/-- Claim C8 (amended): when neither visibility nor ceiling is
resolvable, the METAR classifier returns VFR when the text signals
clear skies or unrestricted (`SCT`/`FEW`-only) clouds, and otherwise
the explicit UNKNOWN category; the TAF forecast classifier returns VFR
on a `CLR`/`SKC`/`CAVOK`/`P6SM` signal and otherwise `null` (no
category) rather than UNKNOWN. -/
theorem claim8_no_data_fallback :
    (∀ m : METAR, m.fltCat = none → m.flightCategory = none →
      findFlightCatTok (upper (jsOrStr3 m.rawOb m.rawText)) = none →
      resolveVisibility m = none →
      cloudLayerMatches (upper (jsOrStr3 m.rawOb m.rawText)) = [] →
      parseFlightCategory m =
        (if clearSkiesTest (upper (jsOrStr3 m.rawOb m.rawText)) ||
            sctFewTest (upper (jsOrStr3 m.rawOb m.rawText)) then
          FlightCategory.VFR
        else FlightCategory.UNKNOWN)) ∧
    (∀ f : Fcst, f.flightCategory = none → dfcVis f = none → dfcCeil f = none →
      determineFlightCategoryFromForecast f =
        (if clearP6Test (upper (jsOrStr3 f.rawOb f.rawText)) then some FlightCategory.VFR
        else none)) := by
  constructor
  · intro m h1 h2 h3 h4 h5
    by_cases hclr : clearSkiesTest (upper (jsOrStr3 m.rawOb m.rawText)) = true
    · simp [parseFlightCategory, categorizeMetar, resolveCeiling, h1, h2, h3, h4, h5,
        hclr, JSNum.ltR, JSNum.geR]
    · by_cases hsf : sctFewTest (upper (jsOrStr3 m.rawOb m.rawText)) = true
      · simp [parseFlightCategory, categorizeMetar, resolveCeiling, h1, h2, h3, h4, h5,
          hclr, hsf, JSNum.ltR, JSNum.geR]
      · simp [parseFlightCategory, categorizeMetar, resolveCeiling, h1, h2, h3, h4, h5,
          hclr, hsf]
  · intro f h1 h2 h3
    cases hraw : jsOrStr f.rawOb f.rawText with
    | some s =>
      simp [determineFlightCategoryFromForecast, h1, h2, h3, hraw]
    | none =>
      have hempty : jsOrStr3 f.rawOb f.rawText = [] := by
        unfold jsOrStr3; rw [hraw]
      simp [determineFlightCategoryFromForecast, h1, h2, h3, hraw, hempty, upper,
        clearP6Test, scanFirst, tryClearTokP6, wordBoundary]

/-- Closed witness for the amended C8 theorem: a report with no data at
all classifies UNKNOWN (METAR side), and a forecast with only a `CAVOK`
signal classifies VFR (TAF side). -/
theorem claim8_witness :
    parseFlightCategory { rawOb := some (("KXYZ 123456Z").toList) } = .UNKNOWN ∧
    determineFlightCategoryFromForecast { rawOb := some (("KXYZ CAVOK").toList) }
      = some .VFR :=
  ⟨(claim8_no_data_fallback.1 { rawOb := some (("KXYZ 123456Z").toList) } rfl rfl
      (by decide) (by with_unfolding_all decide) (by decide)).trans (by decide),
   (claim8_no_data_fallback.2 { rawOb := some (("KXYZ CAVOK").toList) } rfl
      (by with_unfolding_all decide) (by with_unfolding_all decide)).trans (by decide)⟩

/-! ## Claim C3 -/

/-- Claim C3 counterexample: for the text `BKN020 OVC005` the TAF
period parser extracts ceiling 2000 ft (the first qualifying layer),
not the 500 ft minimum over all layers the claim requires; the TAF
forecast classifier's fallback does the same. -/
theorem claim3_counterexample :
    (parsePeriodData (("BKN020 OVC005").toList)).ceilingFt = some 2000 ∧
    ¬ (parsePeriodData (("BKN020 OVC005").toList)).ceilingFt = some 500 ∧
    dfcCeil { rawOb := some (("BKN020 OVC005").toList) } = some 2000 := by
  refine ⟨?_, ?_, ?_⟩ <;> with_unfolding_all decide

/-- Models `Math.min` folded from a finite seed stays finite, picks an element
(or the seed), and bounds everything. -/
theorem foldl_jsMin_fin (l : List ℚ) : ∀ q : ℚ, ∃ r : ℚ,
    List.foldl jsMin (JSNum.fin q) l = .fin r ∧ (r = q ∨ r ∈ l) ∧ r ≤ q ∧
    ∀ x ∈ l, r ≤ x := by
  induction l with
  | nil => exact fun q => ⟨q, rfl, Or.inl rfl, le_refl q, by simp⟩
  | cons a t ih =>
    intro q
    obtain ⟨r, h1, h2, h3, h4⟩ := ih (min q a)
    refine ⟨r, ?_, ?_, ?_, ?_⟩
    · simpa [jsMin] using h1
    · rcases h2 with h | h
      · rcases min_choice q a with hm | hm
        · exact Or.inl (h.trans hm)
        · exact Or.inr (h.trans hm ▸ List.mem_cons_self a t)
      · exact Or.inr (List.mem_cons_of_mem _ h)
    · exact h3.trans (min_le_left _ _)
    · intro x hx
      rcases List.mem_cons.mp hx with rfl | hx
      · exact h3.trans (min_le_right _ _)
      · exact h4 x hx

/-- Models `Math.min(...l)` of a nonempty list is a member and a lower
bound. -/
theorem jsMinAll_spec (l : List ℚ) (hl : l ≠ []) :
    ∃ r : ℚ, jsMinAll l = .fin r ∧ r ∈ l ∧ ∀ x ∈ l, r ≤ x := by
  cases l with
  | nil => exact absurd rfl hl
  | cons a t =>
    obtain ⟨r, h1, h2, h3, h4⟩ := foldl_jsMin_fin t a
    refine ⟨r, ?_, ?_, ?_⟩
    · simpa [jsMinAll, jsMin] using h1
    · rcases h2 with h | h
      · rw [h]; exact List.mem_cons_self _ _
      · exact List.mem_cons_of_mem _ h
    · intro x hx
      rcases List.mem_cons.mp hx with h | hx
      · rw [h]; exact h3
      · exact h4 x hx

/-- The cloud loop never clears an already-set ceiling. -/
theorem foldl_cloudStep_some (l : List (Nat × (CloudCover × CloudHt × Option (List Char))))
    (pd : PeriodData) (c : ℚ) (h : pd.ceilingFt = some c) :
    (l.foldl cloudStep pd).ceilingFt = some c := by
  induction l generalizing pd with
  | nil => exact h
  | cons a t ih =>
    rw [List.foldl_cons]
    apply ih
    rcases a with ⟨i, cov, ht, suf⟩
    cases ht <;> simp [cloudStep, h]

/-- Starting with no ceiling, the cloud loop computes the first
qualifying layer. -/
theorem foldl_cloudStep_none (l : List (Nat × (CloudCover × CloudHt × Option (List Char))))
    (pd : PeriodData) (h : pd.ceilingFt = none) :
    (l.foldl cloudStep pd).ceilingFt = l.findSome? cloudPick := by
  induction l generalizing pd with
  | nil => simpa using h
  | cons a t ih =>
    rw [List.foldl_cons]
    rcases a with ⟨i, cov, ht, suf⟩
    cases ht with
    | digits ds =>
      by_cases hcov : cov = .BKN ∨ cov = .OVC ∨ cov = .VV
      · have hstep : (cloudStep pd (i, cov, .digits ds, suf)).ceilingFt
            = some ((natOfDigits ds : ℚ) * 100) := by
          simp [cloudStep, h, hcov]
        rw [foldl_cloudStep_some t _ _ hstep]
        simp [List.findSome?, cloudPick, hcov]
      · have hstep : (cloudStep pd (i, cov, .digits ds, suf)).ceilingFt = none := by
          simp [cloudStep, h, hcov]
        rw [ih _ hstep]
        simp [List.findSome?, cloudPick, hcov]
    | slashes =>
      have hstep : (cloudStep pd (i, cov, .slashes, suf)).ceilingFt = none := by
        simp [cloudStep, h]
      rw [ih _ hstep]
      simp [List.findSome?, cloudPick]
    | missing =>
      have hstep : (cloudStep pd (i, cov, .missing, suf)).ceilingFt = none := by
        simp [cloudStep, h]
      rw [ih _ hstep]
      simp [List.findSome?, cloudPick]

/-- Claim C3 (amended): the METAR parser extracts the ceiling as the
minimum height over all `BKN`/`OVC`/`VV` layer groups (each 3-digit
group × 100 ft), unbounded (`Infinity`) when there is no such group
but the text signals clear skies or only `SCT`/`FEW` clouds, and
undefined when neither; the TAF period parser instead takes the
*first* `BKN`/`OVC`/`VV` layer with a numeric height. -/
theorem claim3_ceiling_extraction :
    (∀ raw : List Char,
      ((cloudLayerMatches raw ≠ []) → ∃ q : ℚ,
        resolveCeiling raw = some (.fin q) ∧
        q ∈ (cloudLayerMatches raw).map (fun n : Nat => ((n : ℚ) * 100)) ∧
        ∀ x ∈ (cloudLayerMatches raw).map (fun n : Nat => ((n : ℚ) * 100)), q ≤ x) ∧
      (cloudLayerMatches raw = [] → (clearSkiesTest raw || sctFewTest raw) = true →
        resolveCeiling raw = some .inf) ∧
      (cloudLayerMatches raw = [] → clearSkiesTest raw = false → sctFewTest raw = false →
        resolveCeiling raw = none)) ∧
    (∀ text : List Char, (parsePeriodData text).ceilingFt = firstCeilingLayer text) := by
  constructor
  · intro raw
    refine ⟨?_, ?_, ?_⟩
    · intro hne
      cases hm : cloudLayerMatches raw with
      | nil => exact absurd hm hne
      | cons a t =>
        obtain ⟨r, h1, h2, h3⟩ := jsMinAll_spec ((a :: t).map (fun n : Nat => ((n : ℚ) * 100)))
          (by simp)
        refine ⟨r, ?_, ?_, ?_⟩
        · simp only [resolveCeiling, hm, h1]
        · exact h2
        · exact h3
    · intro h1 h2
      rcases Bool.or_eq_true_iff.mp h2 with hc | hs
      · simp [resolveCeiling, h1, hc]
      · by_cases hc : clearSkiesTest raw = true
        · simp [resolveCeiling, h1, hc]
        · simp [resolveCeiling, h1, hc, hs]
    · intro h1 h2 h3
      simp [resolveCeiling, h1, h2, h3]
  · intro text
    have base : ∀ pd : PeriodData, pd.ceilingFt = none →
        ((cloudTokMatches text).foldl cloudStep pd).ceilingFt = firstCeilingLayer text := by
      intro pd h
      rw [foldl_cloudStep_none _ _ h]; rfl
    simp only [parsePeriodData]
    cases h1 : scanFirst tryVisP none text <;>
      cases h2 : scanFirst tryMeterP none text <;>
      cases h3 : scanFirst tryWind none text <;>
      simp only [h1, h2, h3] <;>
      split_ifs <;> (apply base; rfl)

/-- Closed witness for the amended C3 theorem at concrete texts. -/
theorem claim3_witness :
    (∃ q : ℚ, resolveCeiling (("BKN020 OVC005").toList) = some (.fin q) ∧
      q ∈ (cloudLayerMatches (("BKN020 OVC005").toList)).map
        (fun n : Nat => ((n : ℚ) * 100)) ∧
      ∀ x ∈ (cloudLayerMatches (("BKN020 OVC005").toList)).map
        (fun n : Nat => ((n : ℚ) * 100)), q ≤ x) ∧
    resolveCeiling (("KXYZ CLR").toList) = some .inf ∧
    resolveCeiling (("KXYZ 123456Z").toList) = none :=
  ⟨(claim3_ceiling_extraction.1 _).1 (by decide),
   (claim3_ceiling_extraction.1 _).2.1 (by decide) (by decide),
   (claim3_ceiling_extraction.1 _).2.2 (by decide) (by decide) (by decide)⟩

/-! ## Claim C4 -/

/-- Claim C4 counterexample: at `now = 150` the first period in
chronological order satisfying `start ≥ now ∨ start ≤ now ≤ end` is the
first period, whose category is `null` — yet the query returns the
*second* period's category (VFR), because the scan skips window-hits
whose classification is null. -/
theorem claim4_counterexample :
    getNextTAFCondition 150 (some c4TAF) = some .VFR ∧
    [c4Fcst1, c4Fcst2].find? (fun f => gntWindow 150 f) = some c4Fcst1 ∧
    determineFlightCategoryFromForecast c4Fcst1 = none := by
  refine ⟨?_, ?_, ?_⟩ <;> with_unfolding_all decide

/-- The scan loop returns the category of the first period that passes
the window test *and* classifies. -/
theorem gntScan_eq_find (nowSec : Int) (fs : List Fcst) :
    gntScan nowSec fs =
      (fs.find? (fun f => gntWindow nowSec f &&
        (determineFlightCategoryFromForecast f).isSome)).bind
        determineFlightCategoryFromForecast := by
  induction fs with
  | nil => rfl
  | cons f t ih =>
    by_cases hw : gntWindow nowSec f = true
    · cases hc : determineFlightCategoryFromForecast f with
      | some c => simp [gntScan, List.find?, hw, hc]
      | none => simp [gntScan, List.find?, hw, hc, ih]
    · have hw' : gntWindow nowSec f = false := by
        cases h : gntWindow nowSec f
        · rfl
        · exact absurd h hw
      simp [gntScan, List.find?, hw', ih]

/-- Claim C4 (amended): the bulletin query returns the category of the
first period in list order that satisfies `start ≥ now` or
`start ≤ now ≤ end` *and* classifies to a non-null category (window
hits with a null category are skipped); if no period qualifies it
returns the last period's category (null when even that does not
classify); and a null or period-less bulletin yields the
no-forecast-available result (`null`) rather than an error. -/
theorem claim4_query_characterization (nowSec : Int) (otaf : Option TAF) :
    getNextTAFCondition nowSec otaf =
      (match otaf with
      | none => none
      | some taf =>
        match taf.fcsts with
        | none => none
        | some [] => none
        | some fs =>
          match fs.find? (fun f => gntWindow nowSec f &&
              (determineFlightCategoryFromForecast f).isSome) with
          | some f => determineFlightCategoryFromForecast f
          | none => (fs.getLast?).bind determineFlightCategoryFromForecast) := by
  cases otaf with
  | none => rfl
  | some taf =>
    cases hf : taf.fcsts with
    | none => simp [getNextTAFCondition, hf]
    | some fs =>
      cases fs with
      | nil => simp [getNextTAFCondition, hf]
      | cons f t =>
        simp only [getNextTAFCondition, hf]
        rw [gntScan_eq_find]
        cases hfind : (f :: t).find? (fun f => gntWindow nowSec f &&
            (determineFlightCategoryFromForecast f).isSome) with
        | some g =>
          have hp := List.find?_some hfind
          have hs : (determineFlightCategoryFromForecast g).isSome = true :=
            (Bool.and_eq_true _ _).mp hp |>.2
          obtain ⟨c, hc⟩ := Option.isSome_iff_exists.mp hs
          simp [hfind, hc]
        | none =>
          cases hl : (f :: t).getLast? with
          | some l => simp [hfind, hl]
          | none => simp at hl

/-! ## Claim C5 -/

/-- Every month has at least 28 days. -/
theorem daysInMonth_ge (y m : Int) : 28 ≤ daysInMonth y m := by
  unfold daysInMonth; split_ifs <;> omega

/-- Day-carry is the identity on an in-range day. -/
theorem normDay_stop (fuel : Nat) (y m d : Int) (h1 : 1 ≤ d) (h2 : d ≤ daysInMonth y m) :
    normDay fuel y m d = (y, m, d) := by
  cases fuel with
  | zero => rfl
  | succ n =>
    simp only [normDay]
    rw [if_neg (by omega), if_neg (by omega)]

/-- Models `Date.UTC` normalisation with in-range day (≤ 28), hour and minute
only folds the month into the year. -/
theorem normDate_small (y m d h mi : Int) (hd1 : 1 ≤ d) (hd2 : d ≤ 28)
    (hh1 : 0 ≤ h) (hh2 : h ≤ 23) (hmi1 : 0 ≤ mi) (hmi2 : mi ≤ 59) :
    normDate ⟨y, m, d, h, mi⟩ = ⟨y + m / 12, m % 12, d, h, mi⟩ := by
  unfold normDate
  have e3 : mi % 60 = mi := by omega
  have e4 : mi / 60 = 0 := by omega
  have e5 : h % 24 = h := by omega
  have e6 : h / 24 = 0 := by omega
  simp only [e4, add_zero, e3, e5, e6]
  rw [normDay_stop _ _ _ _ hd1 (le_trans hd2 (daysInMonth_ge _ _))]

/-- Normalisation is the identity on a well-formed record. -/
theorem normDate_id (x : DateRec) (hWF : DateWF x) : normDate x = x := by
  obtain ⟨h1, h2, h3, h4, h5, h6, h7, h8⟩ := hWF
  obtain ⟨y, m, d, h, mi⟩ := x
  unfold normDate
  simp only at h1 h2 h3 h4 h5 h6 h7 h8
  have e1 : m / 12 = 0 := by omega
  have e2 : m % 12 = m := by omega
  have e3 : mi % 60 = mi := by omega
  have e4 : mi / 60 = 0 := by omega
  have e5 : h % 24 = h := by omega
  have e6 : h / 24 = 0 := by omega
  simp only [e1, e2, e4, add_zero, e3, e5, e6]
  rw [normDay_stop _ _ _ _ h3 h4]

/-- Claim C5 counterexample: resolving day 31, hour 0 against a
reference of 2025-03-01 00:00 UTC (day ahead of the reference's
day-of-month by 30 > 15) does *not* roll the result back one calendar
month: `setUTCMonth` produces February 31, which JavaScript
renormalises to March 3 — the result stays in March (month index 2)
and does not even keep day 31. -/
theorem claim5_counterexample :
    resolveTruncated 31 0 0 ⟨2025, 2, 1, 0, 0⟩ = ⟨2025, 2, 3, 0, 0⟩ ∧
    ¬ (resolveTruncated 31 0 0 ⟨2025, 2, 1, 0, 0⟩).m = 1 ∧
    ¬ (resolveTruncated 31 0 0 ⟨2025, 2, 1, 0, 0⟩).d = 31 := by
  refine ⟨?_, ?_, ?_⟩ <;> decide

/-- Claim C5 (amended): for a truncated (day, hour[, minute]) timestamp
with 1 ≤ day ≤ 28 resolved against a well-formed reference, the result
is the reference with its day, hour and minute replaced; rolled forward
one calendar month when the day is more than 15 behind the reference's
day-of-month, and rolled back one calendar month when it is more than
15 ahead.  (Days 29–31 can land elsewhere when the target month is
shorter, as the counterexample shows.) -/
theorem claim5_resolve_truncated (issue : DateRec) (hWF : DateWF issue)
    (d h mi : Int) (hd1 : 1 ≤ d) (hd2 : d ≤ 28) (hh1 : 0 ≤ h) (hh2 : h ≤ 23)
    (hmi1 : 0 ≤ mi) (hmi2 : mi ≤ 59) :
    resolveTruncated d h mi issue =
      (if d < issue.d ∧ issue.d - d > 15 then monthSucc ⟨issue.y, issue.m, d, h, mi⟩
      else if d > issue.d ∧ d - issue.d > 15 then monthPred ⟨issue.y, issue.m, d, h, mi⟩
      else ⟨issue.y, issue.m, d, h, mi⟩) := by
  obtain ⟨Y, M, D, H, MI⟩ := issue
  obtain ⟨hm1, hm2, hd1i, hd2i, hh1i, hh2i, hmi1i, hmi2i⟩ := hWF
  simp only at hm1 hm2 hd1i hd2i hh1i hh2i hmi1i hmi2i
  have eM1 : M / 12 = 0 := by omega
  have eM2 : M % 12 = M := by omega
  have e1 : setUTCDateJ ⟨Y, M, D, H, MI⟩ d = ⟨Y, M, d, H, MI⟩ := by
    unfold setUTCDateJ
    rw [normDate_small _ _ _ _ _ hd1 hd2 hh1i hh2i hmi1i hmi2i, eM1, eM2, add_zero]
  have e2 : setUTCHoursJ (⟨Y, M, d, H, MI⟩ : DateRec) h mi = ⟨Y, M, d, h, mi⟩ := by
    unfold setUTCHoursJ
    rw [normDate_small _ _ _ _ _ hd1 hd2 hh1 hh2 hmi1 hmi2, eM1, eM2, add_zero]
  simp only [resolveTruncated, e1, e2]
  by_cases c1 : d < D ∧ D - d > 15
  · rw [if_pos c1, if_pos c1]
    unfold setUTCMonthJ monthSucc
    simp only
    rw [normDate_small _ _ _ _ _ hd1 hd2 hh1 hh2 hmi1 hmi2]
    by_cases h11 : M = 11
    · rw [if_pos (by simp [h11])]
      simp [h11]
    · rw [if_neg (by simpa using h11)]
      have g1 : (M + 1) / 12 = 0 := by omega
      have g2 : (M + 1) % 12 = M + 1 := by omega
      simp [g1, g2]
  · rw [if_neg c1, if_neg c1]
    by_cases c2 : d > D ∧ d - D > 15
    · rw [if_pos c2, if_pos c2]
      unfold setUTCMonthJ monthPred
      simp only
      rw [normDate_small _ _ _ _ _ hd1 hd2 hh1 hh2 hmi1 hmi2]
      by_cases h0 : M = 0
      · rw [if_pos (by simp [h0])]
        simp [h0]
        omega
      · rw [if_neg (by simpa using h0)]
        have g1 : (M - 1) / 12 = 0 := by omega
        have g2 : (M - 1) % 12 = M - 1 := by omega
        simp [g1, g2]
    · rw [if_neg c2, if_neg c2]

/-- Closed witness for the amended C5 theorem: a bulletin issued on the
30th referencing day "02" resolves to the following month (2025-01-30
12:00 referencing day 2, hour 6 yields 2025-02-02 06:00). -/
theorem claim5_witness :
    resolveTruncated 2 6 0 ⟨2025, 0, 30, 12, 0⟩ =
      (if (2 : Int) < (30 : Int) ∧ (30 : Int) - 2 > 15 then
        monthSucc ⟨2025, 0, 2, 6, 0⟩
      else if (2 : Int) > (30 : Int) ∧ (2 : Int) - 30 > 15 then
        monthPred ⟨2025, 0, 2, 6, 0⟩
      else ⟨2025, 0, 2, 6, 0⟩) ∧
    resolveTruncated 2 6 0 ⟨2025, 0, 30, 12, 0⟩ = ⟨2025, 1, 2, 6, 0⟩ :=
  ⟨claim5_resolve_truncated ⟨2025, 0, 30, 12, 0⟩ (by decide) 2 6 0 (by decide)
      (by decide) (by decide) (by decide) (by decide) (by decide),
   by decide⟩

/-! ## Claim C10 -/

/-- Stable insertion grows the list by one. -/
theorem insertPeriod_length (p : DecodedTAFPeriod) (l : List DecodedTAFPeriod) :
    (insertPeriod p l).length = l.length + 1 := by
  induction l with
  | nil => rfl
  | cons q t ih =>
    unfold insertPeriod
    split_ifs <;> simp [ih]

/-- The final sort preserves the number of periods. -/
theorem sortPeriods_length (l : List DecodedTAFPeriod) :
    (sortPeriods l).length = l.length := by
  induction l with
  | nil => rfl
  | cons a t ih =>
    show (insertPeriod a (sortPeriods t)).length = _
    rw [insertPeriod_length, ih]
    rfl

/-- Claim C10: the segmenter returns an empty period list exactly when
the TAF is null or its raw text is empty; for every bulletin with
non-empty raw text it returns at least one period (the initial
period), issue-time or validity tokens present or not. -/
theorem claim10_nonempty_decode (now : DateRec) (otaf : Option TAF) :
    (decodeTAFPeriods now otaf = [] ↔
      (otaf = none ∨ ∃ taf, otaf = some taf ∧ tafRawOf taf = [])) ∧
    (∀ taf, otaf = some taf → tafRawOf taf ≠ [] →
      1 ≤ (decodeTAFPeriods now otaf).length) := by
  have hlen : ∀ taf, tafRawOf taf ≠ [] → (decodeTAFPeriods now (some taf)).length
      = (periodTokenMatches (tafRawOf taf)).length + 1 := by
    intro taf hr
    simp only [decodeTAFPeriods]
    rw [if_neg hr, sortPeriods_length]
    simp [buildPeriods]
  constructor
  · cases otaf with
    | none => simp [decodeTAFPeriods]
    | some taf =>
      by_cases hr : tafRawOf taf = []
      · simp only [decodeTAFPeriods, hr, if_pos]
        simp [hr]
      · constructor
        · intro h
          have := hlen taf hr
          rw [h] at this
          simp at this
        · rintro (h | ⟨taf2, heq, hraw⟩)
          · exact absurd h (by simp)
          · rw [Option.some_inj] at heq
            subst heq
            exact absurd hraw hr
  · intro taf h hne
    subst h
    rw [hlen taf hne]
    omega

/-- Closed witness for C10 at the example bulletin. -/
theorem claim10_witness :
    1 ≤ (decodeTAFPeriods c2Now (some { rawTAF := some c2Bulletin })).length :=
  (claim10_nonempty_decode c2Now (some { rawTAF := some c2Bulletin })).2
    { rawTAF := some c2Bulletin } rfl (by decide)

/-! ## Claim C6 -/

/-- Claim C6: in the decoded period list (initial period at index 0,
the period of the i-th change-group token at index i+1), an `FM`
period's end time is the start of the first `FM` token appearing
anywhere later in the bulletin — which is the immediately following
token whenever that token is an `FM` — and the bulletin's overall
validity end when no later `FM` exists; a `TEMPO`/`BECMG`/`PROB`
period's end time is parsed directly from the second `DDHH` of its own
token's range. -/
theorem claim6_fm_period_end (issueDate validFrom validTo : DateRec) (raw : List Char)
    (i : Nat) (m : Nat × PTok)
    (hm : (periodTokenMatches raw)[i]? = some m) :
    (buildPeriods issueDate validFrom validTo raw (periodTokenMatches raw))[i + 1]?
      = some (mkTailPeriod issueDate validFrom validTo raw (periodTokenMatches raw) i m) ∧
    (isFMTok m.2 = true →
      (mkTailPeriod issueDate validFrom validTo raw (periodTokenMatches raw) i m).validTimeTo
        = (match ((periodTokenMatches raw).drop (i + 1)).find? (fun p => isFMTok p.2) with
          | some mFM => parsePeriodStart mFM.2 issueDate validFrom
          | none => validTo)) ∧
    (∀ kw d1 h1 d2 h2, m.2 = .ranged kw d1 h1 d2 h2 →
      (mkTailPeriod issueDate validFrom validTo raw (periodTokenMatches raw) i m).validTimeTo
        = parseTAFTimeGroup d2 h2 issueDate) := by
  refine ⟨?_, ?_, ?_⟩
  · simp only [buildPeriods]
    rw [List.getElem?_cons_succ, List.getElem?_map, List.getElem?_enum, hm]
    rfl
  · intro hfm
    obtain ⟨idx, tok⟩ := m
    cases tok with
    | ranged kw a b c e => simp [isFMTok] at hfm
    | FM d h mi =>
      simp only [mkTailPeriod]
      cases hnext : (periodTokenMatches raw)[i + 1]? with
      | none =>
        have hlen : (periodTokenMatches raw).length ≤ i + 1 :=
          List.getElem?_eq_none_iff.mp hnext
        rw [List.drop_eq_nil_of_le hlen]
        rfl
      | some m2 =>
        have hlt : i + 1 < (periodTokenMatches raw).length := by
          by_contra hcon
          rw [List.getElem?_eq_none_iff.mpr (by omega)] at hnext
          exact Option.noConfusion hnext
        have hval : (periodTokenMatches raw)[i + 1] = m2 := by
          have := List.getElem?_eq_getElem hlt
          rw [this] at hnext
          exact Option.some_inj.mp hnext
        rw [List.drop_eq_getElem_cons hlt, hval]
        by_cases hf2 : isFMTok m2.2 = true
        · simp only [List.find?]
          simp [hf2]
        · have hf2' : isFMTok m2.2 = false := by
            cases hv : isFMTok m2.2
            · rfl
            · exact absurd hv hf2
          simp only [List.find?]
          simp [hf2']
  · intro kw d1 h1 d2 h2 heq
    obtain ⟨idx, tok⟩ := m
    simp only at heq
    subst heq
    simp [mkTailPeriod]

/-- The C6 theorem applied at the c6 bulletin's first `FM` token (whose
immediately following group is a `TEMPO`), checking the period end is
the later `FM`'s start. -/
theorem claim6_witness :
    (isFMTok ((periodTokenMatches c6Bulletin)[0]?.getD (0, .FM 0 0 0)).2 = true →
      (mkTailPeriod ⟨2024, 0, 1, 6, 0⟩ ⟨2024, 0, 1, 6, 0⟩ ⟨2024, 0, 2, 12, 0⟩ c6Bulletin
        (periodTokenMatches c6Bulletin) 0
        ((periodTokenMatches c6Bulletin)[0]?.getD (0, .FM 0 0 0))).validTimeTo
        = (match ((periodTokenMatches c6Bulletin).drop 1).find? (fun p => isFMTok p.2) with
          | some mFM => parsePeriodStart mFM.2 ⟨2024, 0, 1, 6, 0⟩ ⟨2024, 0, 1, 6, 0⟩
          | none => ⟨2024, 0, 2, 12, 0⟩)) ∧
    (mkTailPeriod ⟨2024, 0, 1, 6, 0⟩ ⟨2024, 0, 1, 6, 0⟩ ⟨2024, 0, 2, 12, 0⟩ c6Bulletin
        (periodTokenMatches c6Bulletin) 0
        ((periodTokenMatches c6Bulletin)[0]?.getD (0, .FM 0 0 0))).validTimeTo
      = ⟨2024, 0, 1, 20, 0⟩ :=
  ⟨(claim6_fm_period_end ⟨2024, 0, 1, 6, 0⟩ ⟨2024, 0, 1, 6, 0⟩ ⟨2024, 0, 2, 12, 0⟩
      c6Bulletin 0 _ (by decide)).2.1,
   by decide⟩

/-! ## Claim C7 -/

/-- Claim C7 counterexample: `decodeTAFPeriods` reads the system clock
(`new Date()`, modelled as the explicit `now` argument) to anchor the
issue month, so decoding the same bulletin text at two different
instants — 2024-01-15 and 2024-02-15 — yields different structured
output (the periods' validity windows land in different months). -/
theorem claim7_counterexample :
    ¬ decodeTAFPeriods ⟨2024, 0, 15, 0, 0⟩ (some { rawTAF := some c2Bulletin })
      = decodeTAFPeriods ⟨2024, 1, 15, 0, 0⟩ (some { rawTAF := some c2Bulletin }) := by
  with_unfolding_all decide

/-- Claim C7 (amended): the decode functions are deterministic given
the clock, and the clock enters `decodeTAFPeriods` only through the
issue-date anchor: two clock instants producing the same anchored
issue date (for the bulletin's raw text) decode identically.  (The
query `getNextTAFCondition` likewise reads `Date.now()` internally
rather than receiving the time from its caller; its clock value is an
explicit argument of the model.) -/
theorem claim7_clock_confinement (n1 n2 : DateRec) (otaf : Option TAF)
    (h : ∀ taf, otaf = some taf →
      issueAnchor n1 (tafRawOf taf) = issueAnchor n2 (tafRawOf taf)) :
    decodeTAFPeriods n1 otaf = decodeTAFPeriods n2 otaf := by
  cases otaf with
  | none => rfl
  | some taf =>
    have h2 := h taf rfl
    simp only [decodeTAFPeriods, h2]

/-- Closed witness for the amended C7 theorem: two *different* clock
instants in the same month anchor the bulletin identically and decode
identically. -/
theorem claim7_witness :
    decodeTAFPeriods ⟨2024, 0, 15, 0, 0⟩ (some { rawTAF := some c2Bulletin })
      = decodeTAFPeriods ⟨2024, 0, 16, 0, 0⟩ (some { rawTAF := some c2Bulletin }) :=
  claim7_clock_confinement ⟨2024, 0, 15, 0, 0⟩ ⟨2024, 0, 16, 0, 0⟩
    (some { rawTAF := some c2Bulletin })
    (fun taf htaf => by
      obtain rfl := Option.some_inj.mp htaf
      decide)

end MetarMap
